import Mathlib

/-!
Brake application of the VESC firmware (`applications/app_brake.c`)

A shallow embedding of the brake application: the periodic control thread
`gen_thread`, the status getters and the terminal command
`terminal_cmd_brake_status`.

Modelling conventions.

* C `float`/`double` values are exact rationals (`ℚ`): infinities and NaN are
  outside the model, and arithmetic is exact.  The one explicit conversion of the
  source, the `(float)` of line 131, is the parameter `narrow` of `control_block` and
  `gen_thread_tick`; `control` and `gen_thread_iter` are their instances in exact
  arithmetic, and `float_cast` is the binary32 rounding.
* The file-scope `volatile` variables and the thread-local `PID pid` of
  `gen_thread` are the fields of `State`.  A local that has been declared but
  not yet assigned is `none`.
* One iteration of the `for(;;)` loop is one atomic step (`gen_thread_iter`);
  terminal commands run between iterations.
* Every call into a collaborator (motor driver, PID primitive, scheduler,
  watchdog, terminal output) is recorded, in program order, as an `Event`.
* `pid_calc` (declared in `pid.h`, not part of this source file) is a parameter
  `upd` of the loop, so the theorems hold for every PID update function;
  `sscanf(_, "%f", _)` is a parameter `scan` of the terminal command.
-/

namespace AppBrake

/-! Constants and helpers -/

/-- The macro `GEN_UPDATE_RATE_HZ` (1000). -/
def GEN_UPDATE_RATE_HZ : Nat := 1000

/-- The macro `SLEEP_TIME`, `(CH_CFG_ST_FREQUENCY / GEN_UPDATE_RATE_HZ)`; the scheduler
frequency `CH_CFG_ST_FREQUENCY` comes from the board configuration and is a
parameter here.  The macro expands to an integer constant expression, whose value is
the exact quotient of the integer division; it is narrowed only where line 152 assigns
it to a `systime_t` (see `to_systime` and `sleep_time`). -/
def SLEEP_TIME (CH_CFG_ST_FREQUENCY : Nat) : Nat :=
  CH_CFG_ST_FREQUENCY / GEN_UPDATE_RATE_HZ

/-- Modelled from the spec: the width of the type `systime_t` of the kernel headers
(absent from src/), the scheduler's tick counter; the spec leaves the width open, and it
is an unsigned integer of 32 bits in the kernel configuration of this firmware. -/
def SYSTIME_BITS : Nat := 32

/-- The conversion of an integer value to the unsigned type `systime_t`: reduction
modulo `2 ^ SYSTIME_BITS`. -/
def to_systime (n : Nat) : Nat := n % 2 ^ SYSTIME_BITS

/-- The macro `MAX_CURRENT` (20.0). -/
def MAX_CURRENT : ℚ := 20

/-- The macro `RPM_THRESHOLD` (150). -/
def RPM_THRESHOLD : ℚ := 150

/-- The libm function `fabsf`, on rationals. -/
def fabsf (x : ℚ) : ℚ := if x < 0 then -x else x

/-- Modelled from the spec: the macro `SIGN` of `utils.h` (absent from src/), the
`sign(speed)` of the spec's `command = -sign(speed) * output`; as in the firmware's
`((x < 0) ? -1 : 1)`, a zero argument counts as positive. -/
def SIGN (x : ℚ) : ℤ := if x < 0 then -1 else 1

/-! The PID primitive (`pid.h`) -/

/-- Modelled from the spec: the type `PID` of `pid.h` (absent from src/): "accumulated
integral term, previous-error memory, configured period/limits/gains".  The only field
the application reads is `integral`. -/
structure PID where
  dt : ℚ
  out_max : ℚ
  out_min : ℚ
  Kp : ℚ
  Kd : ℚ
  Ki : ℚ
  pre_error : ℚ
  integral : ℚ
deriving DecidableEq

/-- Modelled from the spec: `pid_init` of `pid.h` (absent from src/): "a fresh
zero-integral instance parameterized by the current configuration", "given a period,
output limits, and three gains".  The arguments are taken in the order in which
`gen_thread` passes them: period, upper limit, lower limit, `Kp`, `Kd`, `Ki`. -/
def pid_init (dt max min Kp Kd Ki : ℚ) : PID :=
  { dt := dt, out_max := max, out_min := min, Kp := Kp, Kd := Kd, Ki := Ki,
    pre_error := 0, integral := 0 }

/-- Modelled from the spec: `pid_calc` of `pid.h` (absent from src/): the filter
"consumes an error sample each tick and produces a bounded control output plus its
internal integral accumulator".  This is the textbook discrete PID with output
clamping; it is used only to instantiate the parameter `upd` on concrete inputs. -/
def pid_calc (p : PID) (error : ℚ) : ℚ × PID :=
  let integral := p.integral + error * p.dt
  let derivative := (error - p.pre_error) / p.dt
  let raw := p.Kp * error + p.Ki * integral + p.Kd * derivative
  let out := if raw > p.out_max then p.out_max else if raw < p.out_min then p.out_min else raw
  (out, { p with pre_error := error, integral := integral })

/-! State and events -/

/-- The file-scope variables of `app_brake.c` together with the local `pid` of
`gen_thread` (`none`: declared, not yet assigned). -/
structure State where
  stop_now : Bool
  is_running : Bool
  is_active : Bool
  target_rpm : ℚ
  Kp : ℚ
  Ki : ℚ
  Kd : ℚ
  calc_mode : Nat
  brake_current_val : ℚ
  brake_rpm_error : ℚ
  current_integral_val : ℚ
  pid : Option PID
deriving DecidableEq

/-- The static initialisers of the file-scope variables. -/
def boot : State :=
  { stop_now := true, is_running := false, is_active := false,
    target_rpm := 1000, Kp := 5 / 1000, Ki := 15 / 1000, Kd := 0,
    calc_mode := 0, brake_current_val := 0, brake_rpm_error := 0,
    current_integral_val := 0, pid := none }

/-- An argument of a `commands_printf` call. -/
inductive PfArg where
  | nothing
  | str (s : String)
  | num (q : ℚ)
deriving DecidableEq

/-- Calls into the collaborators of the application, as they appear in the source.
`pid_init` carries the filter it returned, `pid_calc` the filter and the error it
was called with. -/
inductive Event where
  | mc_interface_get_rpm
  | pid_init (fresh : PID)
  | pid_calc (p : PID) (error : ℚ)
  | mc_interface_set_duty (duty : ℚ)
  | mc_interface_set_current (current : ℚ)
  | mc_interface_set_brake_current (current : ℚ)
  | mc_interface_set_current_limit2 (limit : ℚ)
  | chThdSleep (t : Nat)
  | timeout_reset
  | commands_printf (fmt : String) (arg : PfArg)
deriving DecidableEq

/-- The events that write to the motor driver. -/
def Event.isDriverWrite : Event → Bool
  | .mc_interface_set_duty _ => true
  | .mc_interface_set_current _ => true
  | .mc_interface_set_brake_current _ => true
  | .mc_interface_set_current_limit2 _ => true
  | _ => false

/-- The motor-driver writes of a trace, in order. -/
def driver_writes (ev : List Event) : List Event := ev.filter Event.isDriverWrite

/-- The `pid_calc` calls of a trace, in order. -/
def pid_updates (ev : List Event) : List Event :=
  ev.filter (fun e => match e with | .pid_calc _ _ => true | _ => false)

/-! Status getters -/

/-- The getter `float app_brake_rpm_error(void)`. -/
def app_brake_rpm_error (s : State) : ℚ := s.brake_rpm_error

/-- The getter `float app_brake_current_command(void)`. -/
def app_brake_current_command (s : State) : ℚ := s.brake_current_val

/-- The getter `float app_brake_current_integral_val(void)`. -/
def app_brake_current_integral_val (s : State) : ℚ := s.current_integral_val

/-- The getter `char app_brake_status(void)`: three bitwise ORs into a `char`; the result is
truncated to the 8 bits of a `char`. -/
def app_brake_status (s : State) : Nat :=
  let s0 : Nat := 0
  let s1 := s0 ||| (if s.is_active then 1 else 0)
  let s2 := s1 ||| (if s.is_running then 2 else 0)
  let s3 := s2 ||| (s.calc_mode <<< 4)
  s3 % 256

/-! The control thread -/

/-- Lines 114-115 of `gen_thread`: `is_running = true; PID pid;`. -/
def gen_thread_entry (s : State) : State :=
  { s with is_running := true, pid := none }

/-- The `if (is_active) { ... }` block of the loop body (lines 117-149), with
`rpm_now_dir` the value returned by `mc_interface_get_rpm()`.  `narrow` is the
conversion `(float)` that line 131 applies to the result of `pid_calc` before the result
is signed, compared with 0.5, issued and published.  `none`: the block calls `pid_calc`
on the local `pid` before anything was assigned to it. -/
def control_block (narrow : ℚ → ℚ) (upd : PID → ℚ → ℚ × PID) (s : State) (rpm_now_dir : ℚ) :
    Option (State × List Event) :=
  if s.is_active then
    let rpm_now := fabsf rpm_now_dir
    let rpm_error := rpm_now - s.target_rpm
    if rpm_now < RPM_THRESHOLD then
      let pid := pid_init (1 / (GEN_UPDATE_RATE_HZ : ℚ)) MAX_CURRENT 0 s.Kp s.Kd s.Ki
      some ({ s with
                calc_mode := 1
                pid := some pid
                brake_rpm_error := rpm_error / 1000
                brake_current_val := 0
                current_integral_val := pid.integral },
            [Event.mc_interface_get_rpm, Event.pid_init pid, Event.mc_interface_set_duty 0])
    else
      match s.pid with
      | none => none
      | some p =>
        let r := upd p rpm_error
        let current := narrow r.1 * -((SIGN rpm_now_dir : ℤ) : ℚ)
        if fabsf current < 1 / 2 ∧ r.2.integral > 0 then
          some ({ s with
                    calc_mode := 2
                    pid := some r.2
                    brake_rpm_error := rpm_error / 1000
                    brake_current_val := current
                    current_integral_val := r.2.integral },
                [Event.mc_interface_get_rpm, Event.pid_calc p rpm_error,
                 Event.mc_interface_set_brake_current (2 / 5)])
        else
          some ({ s with
                    calc_mode := 3
                    pid := some r.2
                    brake_rpm_error := rpm_error / 1000
                    brake_current_val := current
                    current_integral_val := r.2.integral },
                [Event.mc_interface_get_rpm, Event.pid_calc p rpm_error,
                 Event.mc_interface_set_current current])
  else
    some (s, [])

/-- The control block in exact arithmetic, in which the conversion `(float)` of line 131
changes nothing: `control_block` with the identity for `narrow`. -/
def control (upd : PID → ℚ → ℚ × PID) (s : State) (rpm_now_dir : ℚ) :
    Option (State × List Event) :=
  control_block (fun x => x) upd s rpm_now_dir

/-- The conversion `(float)` of a finite value: rounding to the nearest binary32 number,
ties to the even significand (24 significant bits, least exponent -126, so that small
magnitudes round to subnormal numbers or to zero).  Magnitudes of `2 ^ 128` and more,
which have no finite binary32 neighbour, are outside the model. -/
def float_cast (q : ℚ) : ℚ :=
  if q = 0 then 0
  else
    let e : ℤ := max (Int.log 2 |q|) (-126)
    let ulp : ℚ := (2 : ℚ) ^ (e - 23)
    let m : ℚ := |q| / ulp
    let f : ℤ := ⌊m⌋
    let r : ℤ :=
      if m - f < 1 / 2 then f
      else if 1 / 2 < m - f then f + 1
      else if f % 2 = 0 then f else f + 1
    (if q < 0 then -1 else 1) * (r : ℚ) * ulp

/-- Lines 152-157: the duration handed to `chThdSleep`.  The initialisation
`systime_t sleep_time = SLEEP_TIME;` converts the quotient to `systime_t`; a zero is
then raised to one. -/
def sleep_time (CH_CFG_ST_FREQUENCY : Nat) : Nat :=
  if to_systime (SLEEP_TIME CH_CFG_ST_FREQUENCY) = 0 then 1
  else to_systime (SLEEP_TIME CH_CFG_ST_FREQUENCY)

/-- Lines 160-163 as a state update: `if (stop_now) { is_running = false; return; }`. -/
def check_stop (s : State) : State :=
  if s.stop_now then { s with is_running := false } else s

/-- One iteration of the `for(;;)` loop of `gen_thread` (lines 116-167): the control
block, the sleep, then either the stop (`is_running = false; return;`) or the
watchdog reset; `narrow` is the conversion `(float)` of line 131. -/
def gen_thread_tick (narrow : ℚ → ℚ) (upd : PID → ℚ → ℚ × PID) (freq : Nat) (s : State)
    (rpm_now_dir : ℚ) : Option (State × List Event) :=
  match control_block narrow upd s rpm_now_dir with
  | none => none
  | some (s1, ev) =>
    some (check_stop s1,
          ev ++ Event.chThdSleep (sleep_time freq) ::
            (if s1.stop_now then [] else [Event.timeout_reset]))

/-- One iteration of the loop in exact arithmetic: `gen_thread_tick` with the identity
for the conversion `(float)`, that is, with `control` for the control block. -/
def gen_thread_iter (upd : PID → ℚ → ℚ × PID) (freq : Nat) (s : State) (rpm_now_dir : ℚ) :
    Option (State × List Event) :=
  gen_thread_tick (fun x => x) upd freq s rpm_now_dir

/-! The terminal command -/

/-- The call `sscanf(str, "%f", &var)` as a function of the old value of `var`: `scan`
is the conversion `%f` (`none`: no conversion, nothing is stored). -/
def sscanf_f (scan : String → Option ℚ) (str : String) (var : ℚ) : ℚ :=
  match scan str with
  | some v => v
  | none => var

/-- Modelled from the spec: the "firmware/build identifier" `GIT_VERSION`, a build-time
string absent from src/. -/
def GIT_VERSION : String := "GIT_VERSION"

/-- The C expression `b ? "On" : "Off"`. -/
def on_off (b : Bool) : String := if b then "On" else "Off"

/-- The function `static void terminal_cmd_brake_status(int argc, const char **argv)` (lines 171-208);
`argc` is the length of `argv`. -/
def terminal_cmd_brake_status (scan : String → Option ℚ) (s : State) (argv : List String) :
    State × List Event :=
  let argc := argv.length
  if argc > 1 then
    if argv.getD 1 "" = "on" then
      ({ s with is_active := true }, [])
    else if argv.getD 1 "" = "off" then
      ({ s with is_active := false }, [])
    else if argc = 3 ∧ argv.getD 1 "" = "rpm" then
      ({ s with target_rpm := sscanf_f scan (argv.getD 2 "") s.target_rpm }, [])
    else if argc = 3 ∧ argv.getD 1 "" = "lim" then
      (s, [Event.mc_interface_set_current_limit2 (sscanf_f scan (argv.getD 2 "") 0)])
    else if argc = 3 ∧ argv.getD 1 "" = "kp" then
      ({ s with Kp := sscanf_f scan (argv.getD 2 "") s.Kp }, [])
    else if argc = 3 ∧ argv.getD 1 "" = "ki" then
      ({ s with Ki := sscanf_f scan (argv.getD 2 "") s.Ki }, [])
    else if argc = 3 ∧ argv.getD 1 "" = "kd" then
      ({ s with Kd := sscanf_f scan (argv.getD 2 "") s.Kd }, [])
    else if argc = 5 ∧ argv.getD 1 "" = "pid" then
      ({ s with
           Kp := sscanf_f scan (argv.getD 2 "") s.Kp
           Ki := sscanf_f scan (argv.getD 3 "") s.Ki
           Kd := sscanf_f scan (argv.getD 4 "") s.Kd }, [])
    else
      (s, [])
  else if argc = 1 then
    (s, [Event.commands_printf "Brake Status" PfArg.nothing,
         Event.commands_printf "   FW version: %s" (PfArg.str GIT_VERSION),
         Event.commands_printf "   App running: %s" (PfArg.str (on_off s.is_running)),
         Event.commands_printf "   Active: %s" (PfArg.str (on_off s.is_active)),
         Event.commands_printf "   Target RPM: %.1f" (PfArg.num s.target_rpm),
         Event.commands_printf "   Kp: %.6f" (PfArg.num s.Kp),
         Event.commands_printf "   Ki: %.6f" (PfArg.num s.Ki),
         Event.commands_printf "   Kd: %.6f" (PfArg.num s.Kd),
         Event.commands_printf " " PfArg.nothing])
  else
    (s, [])

/-! A reference scanner

The parameter `scan` stands for the C library's `%f` conversion.  `scan_decimal` is a
small instance of it, used on concrete inputs: optional sign, decimal digits with an
optional fraction, at least one digit, trailing characters ignored. -/

/-- Reads decimal digits: the number read so far, how many digits were read, the rest. -/
def scan_digits : List Char → Nat → Nat → Nat × Nat × List Char
  | [], acc, n => (acc, n, [])
  | c :: cs, acc, n =>
    if c.isDigit then scan_digits cs (10 * acc + (c.toNat - 48)) (n + 1) else (acc, n, c :: cs)

/-- The sign, the digits read as one natural number, and the number of fraction digits. -/
def scan_parts (cs : List Char) : Option (Bool × Nat × Nat) :=
  let neg := cs.head? = some '-'
  let body := if cs.head? = some '-' ∨ cs.head? = some '+' then cs.tail else cs
  match scan_digits body 0 0 with
  | (ip, n, rest) =>
    if rest.head? = some '.' then
      match scan_digits rest.tail ip 0 with
      | (m, k, _) => if n + k = 0 then none else some (neg, m, k)
    else if n = 0 then none else some (neg, ip, 0)

/-- A decimal instance of the `%f` conversion. -/
def scan_decimal (str : String) : Option ℚ :=
  match scan_parts (str.toList.dropWhile Char.isWhitespace) with
  | none => none
  | some (neg, m, k) => some ((if neg then -1 else 1) * (m : ℚ) / 10 ^ k)

/-! Runs -/

/-- The function `void app_custom_start(void)`: clears `stop_now` and creates the thread, whose
entry is `gen_thread_entry`. -/
def app_custom_start (s : State) : State :=
  gen_thread_entry { s with stop_now := false }

/-- The function `void app_custom_stop(void)`: raises `stop_now`; the wait loop that follows only
reads `is_running` while the thread performs its remaining iteration. -/
def app_custom_stop (s : State) : State :=
  { s with stop_now := true }

/-- What can happen to the application between two observations. -/
inductive Action where
  | start
  | stop
  | tick (rpm_now_dir : ℚ)
  | terminal (argv : List String)
deriving DecidableEq

/-- One action.  A tick without a running thread does nothing; a start while the
thread is running (a second thread on the same working area) is outside the model. -/
def exec (upd : PID → ℚ → ℚ × PID) (scan : String → Option ℚ) (freq : Nat) (s : State) :
    Action → Option (State × List Event)
  | .start => if s.is_running then none else some (app_custom_start s, [])
  | .stop => some (app_custom_stop s, [])
  | .tick rpm_now_dir => if s.is_running then gen_thread_iter upd freq s rpm_now_dir else some (s, [])
  | .terminal argv => some (terminal_cmd_brake_status scan s argv)

/-- A sequence of actions, with the concatenated trace. -/
def run (upd : PID → ℚ → ℚ × PID) (scan : String → Option ℚ) (freq : Nat) :
    State → List Action → Option (State × List Event)
  | s, [] => some (s, [])
  | s, a :: rest =>
    match exec upd scan freq s a with
    | none => none
    | some (s1, ev1) =>
      match run upd scan freq s1 rest with
      | none => none
      | some (s2, ev2) => some (s2, ev1 ++ ev2)

/-- The action list, run from `s`, consists of terminal commands and of loop iterations
that find the controller disabled (`is_active` false) and the thread running. -/
def disabled_ticks_only (upd : PID → ℚ → ℚ × PID) (scan : String → Option ℚ) (freq : Nat) :
    State → List Action → Bool
  | _, [] => true
  | s, a :: rest =>
    (match a with
      | .tick _ => s.is_running && !s.is_active
      | .terminal _ => true
      | _ => false) &&
    (match exec upd scan freq s a with
      | none => false
      | some (s1, _) => disabled_ticks_only upd scan freq s1 rest)

/-! Concrete states used for evaluation -/

/-- The boot state after `app_custom_start` and the terminal command `on`. -/
def started_on : State :=
  { boot with stop_now := false, is_running := true, is_active := true }

/-- The filter that a below-threshold iteration builds from the boot gains. -/
def boot_filter : PID := pid_init (1 / 1000) 20 0 (5 / 1000) 0 (15 / 1000)

/-- The state `started_on` after one iteration at speed 100. -/
def primed : State :=
  { started_on with
      calc_mode := 1, pid := some boot_filter, brake_rpm_error := (100 - 1000) / 1000 }

/-- The state `primed` after one iteration at speed 2000 with the reference PID. -/
def braking_2000 : State :=
  { primed with
      calc_mode := 3
      pid := some { boot_filter with pre_error := 1000, integral := 1 }
      brake_rpm_error := 1
      brake_current_val := -(1003 / 200)
      current_integral_val := 1 }

/-- The state `primed` after one iteration at speed 1010 with the reference PID. -/
def cogging_1010 : State :=
  { primed with
      calc_mode := 2
      pid := some { boot_filter with pre_error := 10, integral := 1 / 100 }
      brake_rpm_error := 1 / 100
      brake_current_val := -(1003 / 20000)
      current_integral_val := 1 / 100 }

/-- The state `braking_2000` after the terminal command `off`. -/
def paused : State := { braking_2000 with is_active := false }

/-- The state `paused` with the regime tag and the published values cleared. -/
def paused_cleared : State :=
  { paused with
      calc_mode := 0, brake_current_val := 0, brake_rpm_error := 0, current_integral_val := 0 }

/-- The state `primed` with other stored telemetry. -/
def primed_stale : State :=
  { primed with
      calc_mode := 0, brake_current_val := 9, brake_rpm_error := 9, current_integral_val := 9 }

/-- A filter with gains (0, 1, 0) whose integral is `1/2 - 2^-27`, a binary64 number in
the upper half of the gap below the binary32 number 0.5. -/
def edge_filter : PID :=
  { pid_init (1 / 1000) 20 0 0 0 1 with integral := 1 / 2 - 1 / 2 ^ 27 }

/-- A started, enabled state with gains (0, 1, 0), target 1000 and the filter
`edge_filter`. -/
def edge : State :=
  { started_on with Kp := 0, Ki := 1, calc_mode := 3, pid := some edge_filter }

/-! Helper lemmas -/

theorem fabsf_eq_abs (x : ℚ) : fabsf x = |x| := by
  unfold fabsf
  split
  · rename_i h; rw [abs_of_neg h]
  · rename_i h; rw [abs_of_nonneg (not_lt.mp h)]

theorem SIGN_of_neg {x : ℚ} (h : x < 0) : SIGN x = -1 := by
  simp [SIGN, h]

theorem SIGN_of_nonneg {x : ℚ} (h : 0 ≤ x) : SIGN x = 1 := by
  simp [SIGN, not_lt.mpr h]

theorem abs_mul_neg_SIGN (out x : ℚ) : |out * -((SIGN x : ℤ) : ℚ)| = |out| := by
  by_cases h : x < 0
  · rw [SIGN_of_neg h]; push_cast; simp
  · rw [SIGN_of_nonneg (not_lt.mp h)]; push_cast; simp

theorem control_block_disabled (narrow : ℚ → ℚ) (upd : PID → ℚ → ℚ × PID) (s : State)
    (v : ℚ) (hact : s.is_active = false) : control_block narrow upd s v = some (s, []) := by
  simp [control_block, hact]

theorem control_block_below (narrow : ℚ → ℚ) (upd : PID → ℚ → ℚ × PID) (s : State) (v : ℚ)
    (hact : s.is_active = true) (hv : |v| < 150) :
    control_block narrow upd s v =
      some ({ s with
                calc_mode := 1
                pid := some (pid_init (1 / 1000) 20 0 s.Kp s.Kd s.Ki)
                brake_rpm_error := (|v| - s.target_rpm) / 1000
                brake_current_val := 0
                current_integral_val := 0 },
            [Event.mc_interface_get_rpm,
             Event.pid_init (pid_init (1 / 1000) 20 0 s.Kp s.Kd s.Ki),
             Event.mc_interface_set_duty 0]) := by
  simp [control_block, hact, fabsf_eq_abs, RPM_THRESHOLD, hv, GEN_UPDATE_RATE_HZ, MAX_CURRENT,
    pid_init]

theorem control_block_uninit (narrow : ℚ → ℚ) (upd : PID → ℚ → ℚ × PID) (s : State) (v : ℚ)
    (hact : s.is_active = true) (hv : 150 ≤ |v|) (hp : s.pid = none) :
    control_block narrow upd s v = none := by
  simp [control_block, hact, fabsf_eq_abs, RPM_THRESHOLD, not_lt.mpr hv, hp]

theorem control_block_cogging (narrow : ℚ → ℚ) (upd : PID → ℚ → ℚ × PID) (s : State)
    (v : ℚ) (p p' : PID) (out : ℚ)
    (hact : s.is_active = true) (hv : 150 ≤ |v|) (hp : s.pid = some p)
    (hupd : upd p (|v| - s.target_rpm) = (out, p'))
    (hcog : |narrow out| < 1 / 2 ∧ 0 < p'.integral) :
    control_block narrow upd s v =
      some ({ s with
                calc_mode := 2
                pid := some p'
                brake_rpm_error := (|v| - s.target_rpm) / 1000
                brake_current_val := narrow out * -((SIGN v : ℤ) : ℚ)
                current_integral_val := p'.integral },
            [Event.mc_interface_get_rpm, Event.pid_calc p (|v| - s.target_rpm),
             Event.mc_interface_set_brake_current (2 / 5)]) := by
  simp only [control_block, hact, fabsf_eq_abs, RPM_THRESHOLD, not_lt.mpr hv, hp, hupd,
    abs_mul_neg_SIGN, if_true, if_false]
  rw [if_pos ⟨hcog.1, hcog.2⟩]

theorem control_block_direct (narrow : ℚ → ℚ) (upd : PID → ℚ → ℚ × PID) (s : State)
    (v : ℚ) (p p' : PID) (out : ℚ)
    (hact : s.is_active = true) (hv : 150 ≤ |v|) (hp : s.pid = some p)
    (hupd : upd p (|v| - s.target_rpm) = (out, p'))
    (hcog : ¬ (|narrow out| < 1 / 2 ∧ 0 < p'.integral)) :
    control_block narrow upd s v =
      some ({ s with
                calc_mode := 3
                pid := some p'
                brake_rpm_error := (|v| - s.target_rpm) / 1000
                brake_current_val := narrow out * -((SIGN v : ℤ) : ℚ)
                current_integral_val := p'.integral },
            [Event.mc_interface_get_rpm, Event.pid_calc p (|v| - s.target_rpm),
             Event.mc_interface_set_current (narrow out * -((SIGN v : ℤ) : ℚ))]) := by
  simp only [control_block, hact, fabsf_eq_abs, RPM_THRESHOLD, not_lt.mpr hv, hp, hupd,
    abs_mul_neg_SIGN, if_true, if_false]
  rw [if_neg hcog]

theorem control_disabled (upd : PID → ℚ → ℚ × PID) (s : State) (v : ℚ)
    (hact : s.is_active = false) : control upd s v = some (s, []) :=
  control_block_disabled _ upd s v hact

theorem control_below (upd : PID → ℚ → ℚ × PID) (s : State) (v : ℚ)
    (hact : s.is_active = true) (hv : |v| < 150) :
    control upd s v =
      some ({ s with
                calc_mode := 1
                pid := some (pid_init (1 / 1000) 20 0 s.Kp s.Kd s.Ki)
                brake_rpm_error := (|v| - s.target_rpm) / 1000
                brake_current_val := 0
                current_integral_val := 0 },
            [Event.mc_interface_get_rpm,
             Event.pid_init (pid_init (1 / 1000) 20 0 s.Kp s.Kd s.Ki),
             Event.mc_interface_set_duty 0]) :=
  control_block_below _ upd s v hact hv

theorem control_uninit (upd : PID → ℚ → ℚ × PID) (s : State) (v : ℚ)
    (hact : s.is_active = true) (hv : 150 ≤ |v|) (hp : s.pid = none) :
    control upd s v = none :=
  control_block_uninit _ upd s v hact hv hp

theorem control_cogging (upd : PID → ℚ → ℚ × PID) (s : State) (v : ℚ) (p p' : PID) (out : ℚ)
    (hact : s.is_active = true) (hv : 150 ≤ |v|) (hp : s.pid = some p)
    (hupd : upd p (|v| - s.target_rpm) = (out, p'))
    (hcog : |out| < 1 / 2 ∧ 0 < p'.integral) :
    control upd s v =
      some ({ s with
                calc_mode := 2
                pid := some p'
                brake_rpm_error := (|v| - s.target_rpm) / 1000
                brake_current_val := out * -((SIGN v : ℤ) : ℚ)
                current_integral_val := p'.integral },
            [Event.mc_interface_get_rpm, Event.pid_calc p (|v| - s.target_rpm),
             Event.mc_interface_set_brake_current (2 / 5)]) :=
  control_block_cogging (fun x => x) upd s v p p' out hact hv hp hupd hcog

theorem control_direct (upd : PID → ℚ → ℚ × PID) (s : State) (v : ℚ) (p p' : PID) (out : ℚ)
    (hact : s.is_active = true) (hv : 150 ≤ |v|) (hp : s.pid = some p)
    (hupd : upd p (|v| - s.target_rpm) = (out, p'))
    (hcog : ¬ (|out| < 1 / 2 ∧ 0 < p'.integral)) :
    control upd s v =
      some ({ s with
                calc_mode := 3
                pid := some p'
                brake_rpm_error := (|v| - s.target_rpm) / 1000
                brake_current_val := out * -((SIGN v : ℤ) : ℚ)
                current_integral_val := p'.integral },
            [Event.mc_interface_get_rpm, Event.pid_calc p (|v| - s.target_rpm),
             Event.mc_interface_set_current (out * -((SIGN v : ℤ) : ℚ))]) :=
  control_block_direct (fun x => x) upd s v p p' out hact hv hp hupd hcog

@[simp] theorem check_stop_stop_now (s : State) : (check_stop s).stop_now = s.stop_now := by
  unfold check_stop; split <;> rfl

@[simp] theorem check_stop_is_active (s : State) : (check_stop s).is_active = s.is_active := by
  unfold check_stop; split <;> rfl

@[simp] theorem check_stop_target_rpm (s : State) : (check_stop s).target_rpm = s.target_rpm := by
  unfold check_stop; split <;> rfl

@[simp] theorem check_stop_Kp (s : State) : (check_stop s).Kp = s.Kp := by
  unfold check_stop; split <;> rfl

@[simp] theorem check_stop_Ki (s : State) : (check_stop s).Ki = s.Ki := by
  unfold check_stop; split <;> rfl

@[simp] theorem check_stop_Kd (s : State) : (check_stop s).Kd = s.Kd := by
  unfold check_stop; split <;> rfl

@[simp] theorem check_stop_calc_mode (s : State) : (check_stop s).calc_mode = s.calc_mode := by
  unfold check_stop; split <;> rfl

@[simp] theorem check_stop_brake_current_val (s : State) :
    (check_stop s).brake_current_val = s.brake_current_val := by
  unfold check_stop; split <;> rfl

@[simp] theorem check_stop_brake_rpm_error (s : State) :
    (check_stop s).brake_rpm_error = s.brake_rpm_error := by
  unfold check_stop; split <;> rfl

@[simp] theorem check_stop_current_integral_val (s : State) :
    (check_stop s).current_integral_val = s.current_integral_val := by
  unfold check_stop; split <;> rfl

@[simp] theorem check_stop_pid (s : State) : (check_stop s).pid = s.pid := by
  unfold check_stop; split <;> rfl

theorem check_stop_is_running (s : State) :
    (check_stop s).is_running = (s.is_running && !s.stop_now) := by
  unfold check_stop; cases h : s.stop_now <;> simp

/-- The loop iteration in terms of its control block, with the conversion explicit. -/
theorem gen_thread_tick_of_block (narrow : ℚ → ℚ) (upd : PID → ℚ → ℚ × PID) (freq : Nat)
    (s s1 : State) (v : ℚ) (ev : List Event)
    (h : control_block narrow upd s v = some (s1, ev)) :
    gen_thread_tick narrow upd freq s v =
      some (check_stop s1,
            ev ++ Event.chThdSleep (sleep_time freq) ::
              (if s1.stop_now then [] else [Event.timeout_reset])) := by
  unfold gen_thread_tick
  rw [h]

/-- The loop iteration in terms of its control block. -/
theorem gen_thread_iter_of_control (upd : PID → ℚ → ℚ × PID) (freq : Nat) (s s1 : State)
    (v : ℚ) (ev : List Event) (h : control upd s v = some (s1, ev)) :
    gen_thread_iter upd freq s v =
      some (check_stop s1,
            ev ++ Event.chThdSleep (sleep_time freq) ::
              (if s1.stop_now then [] else [Event.timeout_reset])) :=
  gen_thread_tick_of_block (fun x => x) upd freq s s1 v ev h

/-- The loop iteration is undefined exactly when its control block is. -/
theorem gen_thread_iter_eq_none (upd : PID → ℚ → ℚ × PID) (freq : Nat) (s : State) (v : ℚ) :
    gen_thread_iter upd freq s v = none ↔ control upd s v = none := by
  unfold gen_thread_iter gen_thread_tick control
  cases h : control_block (fun x => x) upd s v <;> simp

/-! Evaluations of the reference PID on the boot filter -/

theorem pid_calc_boot_filter_1000 :
    pid_calc boot_filter 1000 = (1003 / 200, { boot_filter with pre_error := 1000, integral := 1 }) := by
  simp [pid_calc, boot_filter, pid_init]
  norm_num

theorem pid_calc_boot_filter_neg_850 :
    pid_calc boot_filter (-850) =
      (0, { boot_filter with pre_error := -850, integral := -(17 / 20) }) := by
  simp [pid_calc, boot_filter, pid_init]
  norm_num

theorem pid_calc_boot_filter_10 :
    pid_calc boot_filter 10 =
      (1003 / 20000, { boot_filter with pre_error := 10, integral := 1 / 100 }) := by
  simp [pid_calc, boot_filter, pid_init]
  norm_num

/-! Claims -/

/-- C1: in every loop state with the controller enabled, one iteration of `gen_thread`
on a measured speed with `|speed| < 150` returns; its only motor-driver write is
`mc_interface_set_duty(0)`; it calls `pid_calc` not at all; the filter becomes the
fresh `pid_init` instance built from the current `Kp`, `Ki`, `Kd` (limits 0 and 20,
integral 0); `calc_mode` becomes 1; the published command is 0 and the published
integral is the fresh filter's integral. -/
theorem below_threshold_tick_zero_duty (upd : PID → ℚ → ℚ × PID) (freq : Nat) (s : State)
    (v : ℚ) (hact : s.is_active = true) (hv : |v| < 150) :
    ∃ s1 ev fresh, gen_thread_iter upd freq s v = some (s1, ev) ∧
      driver_writes ev = [Event.mc_interface_set_duty 0] ∧
      pid_updates ev = [] ∧
      fresh = pid_init (1 / 1000) MAX_CURRENT 0 s.Kp s.Kd s.Ki ∧
      s1.pid = some fresh ∧
      fresh.Kp = s.Kp ∧ fresh.Ki = s.Ki ∧ fresh.Kd = s.Kd ∧
      fresh.out_min = 0 ∧ fresh.out_max = 20 ∧ fresh.integral = 0 ∧
      s1.calc_mode = 1 ∧
      app_brake_current_command s1 = 0 ∧
      app_brake_current_integral_val s1 = fresh.integral := by
  have h := gen_thread_iter_of_control upd freq s _ v _ (control_below upd s v hact hv)
  refine ⟨_, _, pid_init (1 / 1000) MAX_CURRENT 0 s.Kp s.Kd s.Ki, h, ?_, ?_, rfl, ?_⟩
  · by_cases hs : s.stop_now = true <;> simp [hs, driver_writes, Event.isDriverWrite]
  · by_cases hs : s.stop_now = true <;> simp [hs, pid_updates]
  · simp [pid_init, MAX_CURRENT, app_brake_current_command, app_brake_current_integral_val]

/-- Witness for C1: the boot configuration, started and enabled, at speed 100. -/
theorem below_threshold_tick_zero_duty_witness :
    started_on.is_active = true ∧ |(100 : ℚ)| < 150 ∧
    ∃ s1 ev fresh, gen_thread_iter pid_calc 10000 started_on 100 = some (s1, ev) ∧
      driver_writes ev = [Event.mc_interface_set_duty 0] ∧
      pid_updates ev = [] ∧
      fresh = pid_init (1 / 1000) MAX_CURRENT 0 started_on.Kp started_on.Kd started_on.Ki ∧
      s1.pid = some fresh ∧
      fresh.Kp = started_on.Kp ∧ fresh.Ki = started_on.Ki ∧ fresh.Kd = started_on.Kd ∧
      fresh.out_min = 0 ∧ fresh.out_max = 20 ∧ fresh.integral = 0 ∧
      s1.calc_mode = 1 ∧
      app_brake_current_command s1 = 0 ∧
      app_brake_current_integral_val s1 = fresh.integral :=
  ⟨rfl, by norm_num [abs_of_nonneg],
    below_threshold_tick_zero_duty pid_calc 10000 started_on 100 rfl
      (by norm_num [abs_of_nonneg])⟩

theorem float_cast_zero : float_cast 0 = 0 := by
  simp [float_cast]

/-- The binary64 number `1/2 - 2^-27` rounds to the binary32 number 0.5. -/
theorem float_cast_below_half : float_cast (1 / 2 - 1 / 2 ^ 27) = 1 / 2 := by
  have ha : |(1 / 2 - 1 / 2 ^ 27 : ℚ)| = 67108863 / 134217728 := by
    rw [abs_of_nonneg (by norm_num)]; norm_num
  have hpos : (0 : ℚ) < 67108863 / 134217728 := by norm_num
  have hlog : Int.log 2 (67108863 / 134217728 : ℚ) = -2 := by
    have h1 : (-2 : ℤ) ≤ Int.log 2 (67108863 / 134217728 : ℚ) :=
      (Int.zpow_le_iff_le_log (by norm_num) hpos).mp (by norm_num)
    have h2 : Int.log 2 (67108863 / 134217728 : ℚ) < -1 :=
      (Int.lt_zpow_iff_log_lt (by norm_num) hpos).mp (by norm_num)
    omega
  have hne : (1 / 2 - 1 / 2 ^ 27 : ℚ) ≠ 0 := by norm_num
  have hnn : ¬ ((1 / 2 - 1 / 2 ^ 27 : ℚ) < 0) := by norm_num
  have hm : (67108863 / 134217728 : ℚ) / (2 : ℚ) ^ ((-2 : ℤ) - 23) = 67108863 / 4 := by
    norm_num [zpow_neg]
  have hf : ⌊(67108863 / 4 : ℚ)⌋ = 16777215 := by
    rw [Int.floor_eq_iff]; norm_num
  unfold float_cast
  simp only [hne, if_false, hnn, ha, hlog]
  rw [show max (-2 : ℤ) (-126) = -2 from by decide, hm, hf]
  norm_num [zpow_neg]

/-- The reference PID on `edge_filter` with error 0 returns the filter's integral. -/
theorem pid_calc_edge_filter_0 :
    pid_calc edge_filter 0 = (1 / 2 - 1 / 2 ^ 27, edge_filter) := by
  simp [pid_calc, edge_filter, pid_init]
  norm_num

/-- C2 as stated fails: in the state `edge` at speed 1000 the PID update returns
`1/2 - 2^-27`, of magnitude below 0.5, with a positive integral, yet the iteration,
which converts the result to `float` (0.5) before the test `fabsf(current) < 0.5`,
issues the current set-point -0.5 with `calc_mode` 3, not the brake current 0.4. -/
theorem float_cast_moves_regime_boundary :
    edge.is_active = true ∧ (150 : ℚ) ≤ |(1000 : ℚ)| ∧ edge.pid = some edge_filter ∧
    pid_calc edge_filter (|(1000 : ℚ)| - edge.target_rpm) =
      (1 / 2 - 1 / 2 ^ 27, edge_filter) ∧
    |(1 / 2 - 1 / 2 ^ 27 : ℚ)| < 1 / 2 ∧ 0 < edge_filter.integral ∧
    float_cast (1 / 2 - 1 / 2 ^ 27) = 1 / 2 ∧
    ∃ s1 ev, gen_thread_tick float_cast pid_calc 10000 edge 1000 = some (s1, ev) ∧
      driver_writes ev = [Event.mc_interface_set_current (-(1 / 2))] ∧
      s1.calc_mode = 3 ∧
      Event.mc_interface_set_brake_current (2 / 5) ∉ ev := by
  have e : |(1000 : ℚ)| - edge.target_rpm = 0 := by
    norm_num [abs_of_nonneg, edge, started_on, boot]
  have hupd : pid_calc edge_filter (|(1000 : ℚ)| - edge.target_rpm) =
      (1 / 2 - 1 / 2 ^ 27, edge_filter) := by
    rw [e]; exact pid_calc_edge_filter_0
  have hv : (150 : ℚ) ≤ |(1000 : ℚ)| := by norm_num [abs_of_nonneg]
  have hcog : ¬ (|float_cast (1 / 2 - 1 / 2 ^ 27)| < 1 / 2 ∧ 0 < edge_filter.integral) := by
    rw [float_cast_below_half]; norm_num [abs_of_nonneg]
  refine ⟨rfl, hv, rfl, hupd, ?_, ?_, float_cast_below_half, _, _,
    gen_thread_tick_of_block float_cast pid_calc 10000 edge _ 1000 _
      (control_block_direct float_cast pid_calc edge 1000 edge_filter edge_filter
        (1 / 2 - 1 / 2 ^ 27) rfl hv rfl hupd hcog), ?_, ?_, ?_⟩
  · rw [abs_of_nonneg (by norm_num)]; norm_num
  · simp [edge_filter]
    norm_num
  · have hw : float_cast (1 / 2 - 1 / 2 ^ 27) * -((SIGN 1000 : ℤ) : ℚ) = -(1 / 2) := by
      rw [float_cast_below_half, SIGN_of_nonneg (by norm_num)]; norm_num
    simp only [hw]
    simp [driver_writes, Event.isDriverWrite, edge, started_on, boot]
  · simp
  · simp [edge, started_on, boot]

/-- C2, amended: in every loop state with the controller enabled and an assigned filter
`p`, one iteration on a measured speed with `150 ≤ |speed|` (150 included) returns; with
`(out, p1)` the result of the PID update on the error `|speed| - target_rpm` and
`narrow out` the conversion of `out` to `float` (line 131), its only motor-driver write
is `mc_interface_set_brake_current(0.4)`, with `calc_mode` 2, if and only if
`|narrow out| < 0.5` and the integral of `p1` is positive; in every other case its only
motor-driver write is `mc_interface_set_current(-SIGN(speed) * narrow out)`, with
`calc_mode` 3.  The command is `-narrow out` for a positive speed and `narrow out` for a
negative one, and no `mc_interface_set_duty` is issued.  This holds for every
conversion `narrow`, in particular for the binary32 rounding `float_cast`. -/
theorem active_braking_tick_regimes_narrowed (narrow : ℚ → ℚ) (upd : PID → ℚ → ℚ × PID)
    (freq : Nat) (s : State) (v : ℚ) (p p1 : PID) (out : ℚ)
    (hact : s.is_active = true) (hv : 150 ≤ |v|) (hp : s.pid = some p)
    (hupd : upd p (|v| - s.target_rpm) = (out, p1)) :
    ∃ s1 ev, gen_thread_tick narrow upd freq s v = some (s1, ev) ∧
      (driver_writes ev = [Event.mc_interface_set_brake_current (2 / 5)] ↔
        (|narrow out| < 1 / 2 ∧ 0 < p1.integral)) ∧
      (s1.calc_mode = 2 ↔ (|narrow out| < 1 / 2 ∧ 0 < p1.integral)) ∧
      (driver_writes ev =
          [Event.mc_interface_set_current (-((SIGN v : ℤ) : ℚ) * narrow out)] ↔
        ¬ (|narrow out| < 1 / 2 ∧ 0 < p1.integral)) ∧
      (s1.calc_mode = 3 ↔ ¬ (|narrow out| < 1 / 2 ∧ 0 < p1.integral)) ∧
      (0 < v → -((SIGN v : ℤ) : ℚ) * narrow out = -narrow out) ∧
      (v < 0 → -((SIGN v : ℤ) : ℚ) * narrow out = narrow out) ∧
      (∀ d, Event.mc_interface_set_duty d ∉ ev) ∧
      pid_updates ev = [Event.pid_calc p (|v| - s.target_rpm)] ∧
      s1.pid = some p1 := by
  have hsign : narrow out * -((SIGN v : ℤ) : ℚ) = -((SIGN v : ℤ) : ℚ) * narrow out := by ring
  have hpos : 0 < v → -((SIGN v : ℤ) : ℚ) * narrow out = -narrow out := by
    intro h; rw [SIGN_of_nonneg h.le]; push_cast; ring
  have hneg : v < 0 → -((SIGN v : ℤ) : ℚ) * narrow out = narrow out := by
    intro h; rw [SIGN_of_neg h]; push_cast; ring
  by_cases hcog : |narrow out| < 1 / 2 ∧ 0 < p1.integral
  · have h := gen_thread_tick_of_block narrow upd freq s _ v _
      (control_block_cogging narrow upd s v p p1 out hact hv hp hupd hcog)
    refine ⟨_, _, h, iff_of_true ?_ hcog, iff_of_true ?_ hcog,
      iff_of_false ?_ (not_not.mpr hcog), iff_of_false ?_ (not_not.mpr hcog),
      hpos, hneg, ?_, ?_, ?_⟩
    · by_cases hs : s.stop_now = true <;> simp [hs, driver_writes, Event.isDriverWrite]
    · simp
    · by_cases hs : s.stop_now = true <;> simp [hs, driver_writes, Event.isDriverWrite]
    · simp
    · by_cases hs : s.stop_now = true <;> simp [hs]
    · by_cases hs : s.stop_now = true <;> simp [hs, pid_updates]
    · simp
  · have h := gen_thread_tick_of_block narrow upd freq s _ v _
      (control_block_direct narrow upd s v p p1 out hact hv hp hupd hcog)
    refine ⟨_, _, h, iff_of_false ?_ hcog, iff_of_false ?_ hcog,
      iff_of_true ?_ hcog, iff_of_true ?_ hcog, hpos, hneg, ?_, ?_, ?_⟩
    · by_cases hs : s.stop_now = true <;> simp [hs, driver_writes, Event.isDriverWrite]
    · simp
    · by_cases hs : s.stop_now = true <;>
        simp [hs, driver_writes, Event.isDriverWrite, hsign]
    · simp
    · by_cases hs : s.stop_now = true <;> simp [hs]
    · by_cases hs : s.stop_now = true <;> simp [hs, pid_updates]
    · simp

/-- Witness for C2, amended: the boundary speed 150 after a below-threshold iteration,
with the binary32 rounding; the reference PID returns 0, which converts to 0, with a
negative integral, so the current set-point is issued. -/
theorem active_braking_tick_regimes_narrowed_witness :
    primed.is_active = true ∧ (150 : ℚ) ≤ |(150 : ℚ)| ∧ primed.pid = some boot_filter ∧
    pid_calc boot_filter (|(150 : ℚ)| - primed.target_rpm) =
      (0, { boot_filter with pre_error := -850, integral := -(17 / 20) }) ∧
    float_cast 0 = 0 ∧
    ∃ s1 ev, gen_thread_tick float_cast pid_calc 10000 primed 150 = some (s1, ev) ∧
      (driver_writes ev = [Event.mc_interface_set_brake_current (2 / 5)] ↔
        (|float_cast 0| < 1 / 2 ∧
          0 < ({ boot_filter with pre_error := -850, integral := -(17 / 20) } : PID).integral)) ∧
      (s1.calc_mode = 2 ↔ (|float_cast 0| < 1 / 2 ∧
          0 < ({ boot_filter with pre_error := -850, integral := -(17 / 20) } : PID).integral)) ∧
      (driver_writes ev =
          [Event.mc_interface_set_current (-((SIGN 150 : ℤ) : ℚ) * float_cast 0)] ↔
        ¬ (|float_cast 0| < 1 / 2 ∧
          0 < ({ boot_filter with pre_error := -850, integral := -(17 / 20) } : PID).integral)) ∧
      (s1.calc_mode = 3 ↔ ¬ (|float_cast 0| < 1 / 2 ∧
          0 < ({ boot_filter with pre_error := -850, integral := -(17 / 20) } : PID).integral)) ∧
      ((0 : ℚ) < 150 → -((SIGN 150 : ℤ) : ℚ) * float_cast 0 = -float_cast 0) ∧
      ((150 : ℚ) < 0 → -((SIGN 150 : ℤ) : ℚ) * float_cast 0 = float_cast 0) ∧
      (∀ d, Event.mc_interface_set_duty d ∉ ev) ∧
      pid_updates ev = [Event.pid_calc boot_filter (|(150 : ℚ)| - primed.target_rpm)] ∧
      s1.pid = some { boot_filter with pre_error := -850, integral := -(17 / 20) } :=
  have hupd : pid_calc boot_filter (|(150 : ℚ)| - primed.target_rpm) =
      (0, { boot_filter with pre_error := -850, integral := -(17 / 20) }) := by
    have e : |(150 : ℚ)| - primed.target_rpm = -850 := by
      norm_num [abs_of_nonneg, primed, started_on, boot]
    rw [e]; exact pid_calc_boot_filter_neg_850
  ⟨rfl, by norm_num [abs_of_nonneg], rfl, hupd, float_cast_zero,
    active_braking_tick_regimes_narrowed float_cast pid_calc 10000 primed 150 boot_filter _ 0
      rfl (by norm_num [abs_of_nonneg]) rfl hupd⟩

/-- The terminal command writes none of the variables owned by the control thread. -/
theorem terminal_cmd_frame (scan : String → Option ℚ) (s : State) (argv : List String) :
    (terminal_cmd_brake_status scan s argv).1.pid = s.pid ∧
    (terminal_cmd_brake_status scan s argv).1.calc_mode = s.calc_mode ∧
    (terminal_cmd_brake_status scan s argv).1.is_running = s.is_running ∧
    (terminal_cmd_brake_status scan s argv).1.stop_now = s.stop_now ∧
    (terminal_cmd_brake_status scan s argv).1.brake_current_val = s.brake_current_val ∧
    (terminal_cmd_brake_status scan s argv).1.brake_rpm_error = s.brake_rpm_error ∧
    (terminal_cmd_brake_status scan s argv).1.current_integral_val = s.current_integral_val := by
  unfold terminal_cmd_brake_status
  simp only []
  split_ifs <;> simp

/-- The terminal command never calls the PID primitive. -/
theorem terminal_cmd_pid_updates (scan : String → Option ℚ) (s : State) (argv : List String) :
    pid_updates (terminal_cmd_brake_status scan s argv).2 = [] := by
  unfold terminal_cmd_brake_status
  simp only []
  split_ifs <;> simp [pid_updates]

/-- A disabled iteration: only the sleep and the stop check happen. -/
theorem gen_thread_iter_disabled (upd : PID → ℚ → ℚ × PID) (freq : Nat) (s : State) (v : ℚ)
    (hact : s.is_active = false) :
    gen_thread_iter upd freq s v =
      some (check_stop s,
            Event.chThdSleep (sleep_time freq) ::
              (if s.stop_now then [] else [Event.timeout_reset])) := by
  rw [gen_thread_iter_of_control upd freq s s v [] (control_disabled upd s v hact)]
  simp

theorem pid_updates_append (a b : List Event) :
    pid_updates (a ++ b) = pid_updates a ++ pid_updates b := by
  simp [pid_updates]

/-- Terminal commands and disabled iterations keep the filter and call no PID update. -/
theorem disabled_run_keeps_pid (upd : PID → ℚ → ℚ × PID) (scan : String → Option ℚ)
    (freq : Nat) (mid : List Action) :
    ∀ (s s2 : State) (e2 : List Event),
      disabled_ticks_only upd scan freq s mid = true →
      run upd scan freq s mid = some (s2, e2) →
      s2.pid = s.pid ∧ pid_updates e2 = [] := by
  induction mid with
  | nil =>
    intro s s2 e2 _ hrun
    simp [run] at hrun
    obtain ⟨rfl, rfl⟩ := hrun
    simp [pid_updates]
  | cons a rest ih =>
    intro s s2 e2 hmid hrun
    cases a with
    | start => simp [disabled_ticks_only] at hmid
    | stop => simp [disabled_ticks_only] at hmid
    | tick v =>
      simp only [disabled_ticks_only, Bool.and_eq_true, Bool.not_eq_true'] at hmid
      obtain ⟨⟨hr, ha⟩, hrest⟩ := hmid
      have hex : exec upd scan freq s (Action.tick v) =
          some (check_stop s, Event.chThdSleep (sleep_time freq) ::
            (if s.stop_now then [] else [Event.timeout_reset])) := by
        simp only [exec, hr, if_true]
        exact gen_thread_iter_disabled upd freq s v ha
      rw [hex] at hrest
      simp only [run, hex] at hrun
      cases hr2 : run upd scan freq (check_stop s) rest with
      | none => rw [hr2] at hrun; simp at hrun
      | some r =>
        obtain ⟨s3, e3⟩ := r
        rw [hr2] at hrun
        simp only [Option.some.injEq, Prod.mk.injEq] at hrun
        obtain ⟨rfl, rfl⟩ := hrun
        have := ih (check_stop s) s3 e3 hrest hr2
        refine ⟨by simpa using this.1, ?_⟩
        rw [pid_updates_append, this.2]
        by_cases hs : s.stop_now = true <;> simp [hs, pid_updates]
    | terminal argv =>
      simp only [disabled_ticks_only, Bool.true_and, exec] at hmid
      simp only [run, exec] at hrun
      cases hr2 : run upd scan freq (terminal_cmd_brake_status scan s argv).1 rest with
      | none => rw [hr2] at hrun; simp at hrun
      | some r =>
        obtain ⟨s3, e3⟩ := r
        rw [hr2] at hrun
        simp only [Option.some.injEq, Prod.mk.injEq] at hrun
        obtain ⟨rfl, rfl⟩ := hrun
        have := ih _ s3 e3 hmid hr2
        refine ⟨by rw [this.1, (terminal_cmd_frame scan s argv).1], ?_⟩
        rw [pid_updates_append, this.2, terminal_cmd_pid_updates]
        rfl

/-- C4: from every loop state, if an enabled iteration with `|speed| < 150` is followed,
after any sequence of terminal commands and disabled iterations, by an enabled iteration
with `150 ≤ |speed|`, then the later iteration returns and its single PID update is
called on the filter built by the earlier one, whose integral is 0, whatever filter
the loop held before; nothing in between calls the PID update. -/
theorem reentry_starts_from_zero_integral (upd : PID → ℚ → ℚ × PID)
    (scan : String → Option ℚ) (freq : Nat) (s0 s1 s2 : State) (e1 e2 : List Event)
    (v1 v2 : ℚ) (mid : List Action)
    (hact0 : s0.is_active = true) (hv1 : |v1| < 150)
    (h1 : gen_thread_iter upd freq s0 v1 = some (s1, e1))
    (hmid : disabled_ticks_only upd scan freq s1 mid = true)
    (hrun : run upd scan freq s1 mid = some (s2, e2))
    (hact2 : s2.is_active = true) (hv2 : 150 ≤ |v2|) :
    ∃ s3 e3 p, gen_thread_iter upd freq s2 v2 = some (s3, e3) ∧
      pid_updates e3 = [Event.pid_calc p (|v2| - s2.target_rpm)] ∧
      p = pid_init (1 / 1000) MAX_CURRENT 0 s0.Kp s0.Kd s0.Ki ∧
      p.integral = 0 ∧
      pid_updates e2 = [] := by
  have hs1 : s1.pid = some (pid_init (1 / 1000) MAX_CURRENT 0 s0.Kp s0.Kd s0.Ki) := by
    rw [gen_thread_iter_of_control upd freq s0 _ v1 _ (control_below upd s0 v1 hact0 hv1)] at h1
    simp only [Option.some.injEq, Prod.mk.injEq] at h1
    rw [← h1.1]
    simp [MAX_CURRENT]
  obtain ⟨hpid, hno⟩ := disabled_run_keeps_pid upd scan freq mid s1 s2 e2 hmid hrun
  have hs2 : s2.pid = some (pid_init (1 / 1000) MAX_CURRENT 0 s0.Kp s0.Kd s0.Ki) := by
    rw [hpid, hs1]
  have hev : ∀ (sx : State) (ex : List Event),
      control upd s2 v2 = some (sx, ex) →
      pid_updates ex = [Event.pid_calc (pid_init (1 / 1000) MAX_CURRENT 0 s0.Kp s0.Kd s0.Ki)
        (|v2| - s2.target_rpm)] →
      ∃ s3 e3 p, gen_thread_iter upd freq s2 v2 = some (s3, e3) ∧
        pid_updates e3 = [Event.pid_calc p (|v2| - s2.target_rpm)] ∧
        p = pid_init (1 / 1000) MAX_CURRENT 0 s0.Kp s0.Kd s0.Ki ∧
        p.integral = 0 ∧ pid_updates e2 = [] := by
    intro sx ex hc hx
    refine ⟨_, _, _, gen_thread_iter_of_control upd freq s2 sx v2 ex hc, ?_, rfl, rfl, hno⟩
    rw [pid_updates_append, hx]
    by_cases hs : sx.stop_now = true <;> simp [hs, pid_updates]
  cases hu : upd (pid_init (1 / 1000) MAX_CURRENT 0 s0.Kp s0.Kd s0.Ki) (|v2| - s2.target_rpm) with
  | mk out p1 =>
    by_cases hcog : |out| < 1 / 2 ∧ 0 < p1.integral
    · exact hev _ _ (control_cogging upd s2 v2 _ p1 out hact2 hv2 hs2 hu hcog)
        (by simp [pid_updates])
    · exact hev _ _ (control_direct upd s2 v2 _ p1 out hact2 hv2 hs2 hu hcog)
        (by simp [pid_updates])

/-- Witness for C4: a loop state that holds a filter with a left-over integral of 7; a
below-threshold iteration at speed 100, `off`, two disabled iterations, `on`, then an
iteration at speed 2000. -/
theorem reentry_starts_from_zero_integral_witness :
    ({ primed with pid := some { boot_filter with integral := 7 } } : State).is_active = true ∧
    |(100 : ℚ)| < 150 ∧
    gen_thread_iter pid_calc 10000 { primed with pid := some { boot_filter with integral := 7 } }
      100 = some (primed, [Event.mc_interface_get_rpm, Event.pid_init boot_filter,
        Event.mc_interface_set_duty 0, Event.chThdSleep 10, Event.timeout_reset]) ∧
    disabled_ticks_only pid_calc scan_decimal 10000 primed
      [Action.terminal ["brake", "off"], Action.tick 3000, Action.tick 2500,
       Action.terminal ["brake", "on"]] = true ∧
    run pid_calc scan_decimal 10000 primed
      [Action.terminal ["brake", "off"], Action.tick 3000, Action.tick 2500,
       Action.terminal ["brake", "on"]] =
      some (primed, [Event.chThdSleep 10, Event.timeout_reset,
                     Event.chThdSleep 10, Event.timeout_reset]) ∧
    primed.is_active = true ∧ (150 : ℚ) ≤ |(2000 : ℚ)| ∧
    ∃ s3 e3 p, gen_thread_iter pid_calc 10000 primed 2000 = some (s3, e3) ∧
      pid_updates e3 = [Event.pid_calc p (|(2000 : ℚ)| - primed.target_rpm)] ∧
      p = pid_init (1 / 1000) MAX_CURRENT 0
        ({ primed with pid := some { boot_filter with integral := 7 } } : State).Kp
        ({ primed with pid := some { boot_filter with integral := 7 } } : State).Kd
        ({ primed with pid := some { boot_filter with integral := 7 } } : State).Ki ∧
      p.integral = 0 ∧
      pid_updates [Event.chThdSleep 10, Event.timeout_reset,
                   Event.chThdSleep 10, Event.timeout_reset] = [] :=
  have h1 : gen_thread_iter pid_calc 10000
      { primed with pid := some { boot_filter with integral := 7 } } 100 =
      some (primed, [Event.mc_interface_get_rpm, Event.pid_init boot_filter,
        Event.mc_interface_set_duty 0, Event.chThdSleep 10, Event.timeout_reset]) := by
    rw [gen_thread_iter_of_control pid_calc 10000 _ _ 100 _
      (control_below pid_calc _ 100 rfl (by norm_num [abs_of_nonneg]))]
    simp [check_stop, primed, started_on, boot, boot_filter, sleep_time, to_systime, SYSTIME_BITS, SLEEP_TIME,
      GEN_UPDATE_RATE_HZ]
  have hmid : disabled_ticks_only pid_calc scan_decimal 10000 primed
      [Action.terminal ["brake", "off"], Action.tick 3000, Action.tick 2500,
       Action.terminal ["brake", "on"]] = true := by
    simp [disabled_ticks_only, exec, terminal_cmd_brake_status, gen_thread_iter, gen_thread_tick, control, control_block,
      check_stop, primed, started_on, boot]
  have hrun : run pid_calc scan_decimal 10000 primed
      [Action.terminal ["brake", "off"], Action.tick 3000, Action.tick 2500,
       Action.terminal ["brake", "on"]] =
      some (primed, [Event.chThdSleep 10, Event.timeout_reset,
                     Event.chThdSleep 10, Event.timeout_reset]) := by
    simp [run, exec, terminal_cmd_brake_status, gen_thread_iter, gen_thread_tick, control, control_block,
      check_stop, primed, started_on, boot, sleep_time, to_systime, SYSTIME_BITS, SLEEP_TIME, GEN_UPDATE_RATE_HZ]
  ⟨rfl, by norm_num [abs_of_nonneg], h1, hmid, hrun, rfl, by norm_num [abs_of_nonneg],
    reentry_starts_from_zero_integral pid_calc scan_decimal 10000 _ primed primed _ _ 100 2000 _
      rfl (by norm_num [abs_of_nonneg]) h1 hmid hrun rfl (by norm_num [abs_of_nonneg])⟩

/-- The control block issues no sleep: what it can emit. -/
theorem control_events (upd : PID → ℚ → ℚ × PID) (s s1 : State) (v : ℚ) (ev : List Event)
    (h : control upd s v = some (s1, ev)) :
    ev = [] ∨
    (∃ p, ev = [Event.mc_interface_get_rpm, Event.pid_init p, Event.mc_interface_set_duty 0]) ∨
    (∃ p e, ev = [Event.mc_interface_get_rpm, Event.pid_calc p e,
      Event.mc_interface_set_brake_current (2 / 5)]) ∨
    (∃ p e c, ev = [Event.mc_interface_get_rpm, Event.pid_calc p e,
      Event.mc_interface_set_current c]) := by
  by_cases hact : s.is_active = true
  · by_cases hv : |v| < 150
    · rw [control_below upd s v hact hv] at h
      simp only [Option.some.injEq, Prod.mk.injEq] at h
      exact Or.inr (Or.inl ⟨_, h.2.symm⟩)
    · have hv2 : 150 ≤ |v| := not_lt.mp hv
      cases hp : s.pid with
      | none => rw [control_uninit upd s v hact hv2 hp] at h; simp at h
      | some p =>
        cases hu : upd p (|v| - s.target_rpm) with
        | mk out p1 =>
          by_cases hcog : |out| < 1 / 2 ∧ 0 < p1.integral
          · rw [control_cogging upd s v p p1 out hact hv2 hp hu hcog] at h
            simp only [Option.some.injEq, Prod.mk.injEq] at h
            exact Or.inr (Or.inr (Or.inl ⟨_, _, h.2.symm⟩))
          · rw [control_direct upd s v p p1 out hact hv2 hp hu hcog] at h
            simp only [Option.some.injEq, Prod.mk.injEq] at h
            exact Or.inr (Or.inr (Or.inr ⟨_, _, _, h.2.symm⟩))
  · rw [control_disabled upd s v (by simpa using hact)] at h
    simp only [Option.some.injEq, Prod.mk.injEq] at h
    exact Or.inl h.2.symm

/-- Every iteration that returns sleeps exactly once, for `sleep_time`. -/
theorem gen_thread_iter_sleeps (upd : PID → ℚ → ℚ × PID) (freq : Nat) (s s1 : State) (v : ℚ)
    (ev : List Event) (h : gen_thread_iter upd freq s v = some (s1, ev)) :
    ev.filter (fun e => match e with | .chThdSleep _ => true | _ => false) =
      [Event.chThdSleep (sleep_time freq)] := by
  cases hc : control upd s v with
  | none => rw [(gen_thread_iter_eq_none upd freq s v).mpr hc] at h; simp at h
  | some r =>
    obtain ⟨sx, ex⟩ := r
    rw [gen_thread_iter_of_control upd freq s sx v ex hc] at h
    simp only [Option.some.injEq, Prod.mk.injEq] at h
    rw [← h.2]
    rcases control_events upd s sx v ex hc with h0 | ⟨p, h0⟩ | ⟨p, e, h0⟩ | ⟨p, e, c, h0⟩ <;>
      subst h0 <;> by_cases hs : sx.stop_now = true <;> simp [hs]

/-- C5: in every loop state with the controller disabled, one iteration of `gen_thread`
returns and does nothing but sleep for `sleep_time` and then, unless a stop is
requested, reset the watchdog: no motor-driver write (not even a speed read), the
filter, `calc_mode` and the published error, command and integral are unchanged.  The
sleep is the one every iteration performs, enabled or not. -/
theorem disabled_tick_is_idle (upd : PID → ℚ → ℚ × PID) (freq : Nat) (s : State) (v : ℚ)
    (hact : s.is_active = false) :
    ∃ s1 ev, gen_thread_iter upd freq s v = some (s1, ev) ∧
      ev = Event.chThdSleep (sleep_time freq) ::
        (if s.stop_now then [] else [Event.timeout_reset]) ∧
      driver_writes ev = [] ∧
      pid_updates ev = [] ∧
      s1.pid = s.pid ∧
      s1.calc_mode = s.calc_mode ∧
      app_brake_rpm_error s1 = app_brake_rpm_error s ∧
      app_brake_current_command s1 = app_brake_current_command s ∧
      app_brake_current_integral_val s1 = app_brake_current_integral_val s ∧
      (s.stop_now = false → s1 = s ∧ Event.timeout_reset ∈ ev) ∧
      (∀ (sa sb : State) (va : ℚ) (eb : List Event),
        gen_thread_iter upd freq sa va = some (sb, eb) →
        eb.filter (fun e => match e with | .chThdSleep _ => true | _ => false) =
          ev.filter (fun e => match e with | .chThdSleep _ => true | _ => false)) := by
  have h := gen_thread_iter_disabled upd freq s v hact
  refine ⟨_, _, h, rfl, ?_, ?_, ?_, ?_, ?_, ?_, ?_, ?_, ?_⟩
  · by_cases hs : s.stop_now = true <;> simp [hs, driver_writes, Event.isDriverWrite]
  · by_cases hs : s.stop_now = true <;> simp [hs, pid_updates]
  · simp
  · simp
  · simp [app_brake_rpm_error]
  · simp [app_brake_current_command]
  · simp [app_brake_current_integral_val]
  · intro hs
    simp [hs, check_stop]
  · intro sa sb va eb hb
    rw [gen_thread_iter_sleeps upd freq sa sb va eb hb, gen_thread_iter_sleeps upd freq s _ v _ h]

/-- Witness for C5: the thread started from boot, the controller never enabled. -/
theorem disabled_tick_is_idle_witness :
    (app_custom_start boot).is_active = false ∧
    ∃ s1 ev, gen_thread_iter pid_calc 10000 (app_custom_start boot) 2000 = some (s1, ev) ∧
      ev = Event.chThdSleep (sleep_time 10000) ::
        (if (app_custom_start boot).stop_now then [] else [Event.timeout_reset]) ∧
      driver_writes ev = [] ∧
      pid_updates ev = [] ∧
      s1.pid = (app_custom_start boot).pid ∧
      s1.calc_mode = (app_custom_start boot).calc_mode ∧
      app_brake_rpm_error s1 = app_brake_rpm_error (app_custom_start boot) ∧
      app_brake_current_command s1 = app_brake_current_command (app_custom_start boot) ∧
      app_brake_current_integral_val s1 =
        app_brake_current_integral_val (app_custom_start boot) ∧
      ((app_custom_start boot).stop_now = false →
        s1 = app_custom_start boot ∧ Event.timeout_reset ∈ ev) ∧
      (∀ (sa sb : State) (va : ℚ) (eb : List Event),
        gen_thread_iter pid_calc 10000 sa va = some (sb, eb) →
        eb.filter (fun e => match e with | .chThdSleep _ => true | _ => false) =
          ev.filter (fun e => match e with | .chThdSleep _ => true | _ => false)) :=
  ⟨rfl, disabled_tick_is_idle pid_calc 10000 (app_custom_start boot) 2000 rfl⟩

theorem run_cons (upd : PID → ℚ → ℚ × PID) (scan : String → Option ℚ) (freq : Nat)
    (s : State) (a : Action) (rest : List Action) :
    run upd scan freq s (a :: rest) =
      match exec upd scan freq s a with
      | none => none
      | some (s1, ev1) =>
        match run upd scan freq s1 rest with
        | none => none
        | some (s2, ev2) => some (s2, ev1 ++ ev2) := rfl

/-- Runs compose. -/
theorem run_append (upd : PID → ℚ → ℚ × PID) (scan : String → Option ℚ) (freq : Nat)
    (as bs : List Action) :
    ∀ s : State, run upd scan freq s (as ++ bs) =
      match run upd scan freq s as with
      | none => none
      | some (s1, e1) =>
        match run upd scan freq s1 bs with
        | none => none
        | some (s2, e2) => some (s2, e1 ++ e2) := by
  induction as with
  | nil =>
    intro s
    simp only [List.nil_append, run]
    cases run upd scan freq s bs with
    | none => rfl
    | some r => simp
  | cons a rest ih =>
    intro s
    rw [List.cons_append, run_cons, run_cons]
    cases exec upd scan freq s a with
    | none => rfl
    | some r =>
      obtain ⟨s1, e1⟩ := r
      simp only []
      rw [ih s1]
      cases run upd scan freq s1 rest with
      | none => rfl
      | some r2 =>
        obtain ⟨s2, e2⟩ := r2
        simp only []
        cases run upd scan freq s2 bs with
        | none => rfl
        | some r3 => simp

/-- C6 (the code at the failing input): after `app_custom_start` and the terminal command
`on`, the thread runs, the controller is enabled and the local filter has never been
assigned; the first iteration at speed 2000 calls `pid_calc` on that filter, so the
iteration, and every run through it, has no defined result. -/
theorem first_active_tick_reads_unassigned_filter (upd : PID → ℚ → ℚ × PID)
    (scan : String → Option ℚ) (freq : Nat) :
    ∃ s, run upd scan freq boot [Action.start, Action.terminal ["brake", "on"]] = some (s, []) ∧
      s.is_running = true ∧ s.is_active = true ∧ s.pid = none ∧
      gen_thread_iter upd freq s 2000 = none ∧
      run upd scan freq boot
        [Action.start, Action.terminal ["brake", "on"], Action.tick 2000] = none := by
  have hc : control upd started_on 2000 = none :=
    control_uninit upd started_on 2000 rfl (by norm_num [abs_of_nonneg]) rfl
  have hi := (gen_thread_iter_eq_none upd freq started_on 2000).mpr hc
  have h2 : run upd scan freq boot [Action.start, Action.terminal ["brake", "on"]] =
      some (started_on, []) := by
    simp [run, exec, terminal_cmd_brake_status, app_custom_start, gen_thread_entry, boot,
      started_on]
  refine ⟨started_on, h2, rfl, rfl, rfl, hi, ?_⟩
  have h3 : run upd scan freq started_on [Action.tick 2000] = none := by
    have hr : started_on.is_running = true := rfl
    simp only [run, exec, hr, if_true, hi]
  have := run_append upd scan freq [Action.start, Action.terminal ["brake", "on"]]
    [Action.tick 2000] boot
  rw [h2] at this
  simp only [h3] at this
  exact this

/-- The iteration from `primed` at speed 1010: the reference PID returns 0.05015 with a
positive integral, which is the cogging regime. -/
theorem gen_thread_iter_primed_1010 :
    gen_thread_iter pid_calc 10000 primed 1010 =
      some (cogging_1010,
            [Event.mc_interface_get_rpm, Event.pid_calc boot_filter 10,
             Event.mc_interface_set_brake_current (2 / 5),
             Event.chThdSleep 10, Event.timeout_reset]) := by
  have e : |(1010 : ℚ)| - primed.target_rpm = 10 := by
    norm_num [abs_of_nonneg, primed, started_on, boot]
  have hupd : pid_calc boot_filter (|(1010 : ℚ)| - primed.target_rpm) =
      (1003 / 20000, { boot_filter with pre_error := 10, integral := 1 / 100 }) := by
    rw [e]; exact pid_calc_boot_filter_10
  rw [gen_thread_iter_of_control pid_calc 10000 primed _ 1010 _
    (control_cogging pid_calc primed 1010 boot_filter _ (1003 / 20000) rfl
      (by norm_num [abs_of_nonneg]) rfl hupd (by norm_num [abs_of_nonneg]))]
  simp [check_stop, cogging_1010, primed, started_on, boot, sleep_time, to_systime, SYSTIME_BITS, SLEEP_TIME,
    GEN_UPDATE_RATE_HZ, SIGN]
  norm_num [abs_of_nonneg]

/-- The iteration from `primed` at speed 2000: the reference PID returns 5.015, which is
the direct regime. -/
theorem gen_thread_iter_primed_2000 :
    gen_thread_iter pid_calc 10000 primed 2000 =
      some (braking_2000,
            [Event.mc_interface_get_rpm, Event.pid_calc boot_filter 1000,
             Event.mc_interface_set_current (-(1003 / 200)),
             Event.chThdSleep 10, Event.timeout_reset]) := by
  have e : |(2000 : ℚ)| - primed.target_rpm = 1000 := by
    norm_num [abs_of_nonneg, primed, started_on, boot]
  have hupd : pid_calc boot_filter (|(2000 : ℚ)| - primed.target_rpm) =
      (1003 / 200, { boot_filter with pre_error := 1000, integral := 1 }) := by
    rw [e]; exact pid_calc_boot_filter_1000
  rw [gen_thread_iter_of_control pid_calc 10000 primed _ 2000 _
    (control_direct pid_calc primed 2000 boot_filter _ (1003 / 200) rfl
      (by norm_num [abs_of_nonneg]) rfl hupd (by norm_num [abs_of_nonneg]))]
  simp [check_stop, braking_2000, primed, started_on, boot, sleep_time, to_systime, SYSTIME_BITS, SLEEP_TIME,
    GEN_UPDATE_RATE_HZ, SIGN]
  norm_num [abs_of_nonneg]

/-- C7 as stated fails: after a below-threshold iteration with the boot configuration,
the iteration at speed 1010 applies the brake current 0.4 to the motor driver (cogging
regime) while `app_brake_current_command` returns -0.05015. -/
theorem published_command_differs_in_cogging :
    ∃ s1 ev, gen_thread_iter pid_calc 10000 primed 1010 = some (s1, ev) ∧
      primed.is_active = true ∧
      driver_writes ev = [Event.mc_interface_set_brake_current (2 / 5)] ∧
      app_brake_current_command s1 = -(1003 / 20000) ∧
      app_brake_current_command s1 ≠ 2 / 5 := by
  refine ⟨_, _, gen_thread_iter_primed_1010, rfl, ?_, ?_, ?_⟩
  · simp [driver_writes, Event.isDriverWrite]
  · simp [app_brake_current_command, cogging_1010]
  · simp [app_brake_current_command, cogging_1010]
    norm_num

/-- C7, amended: after every enabled iteration that returns, `app_brake_current_command`
returns the command computed by the iteration: 0 below the threshold, where the only
driver write is the zero duty; at or above it the value `-SIGN(speed) * out` of the PID
update, which either is the current set-point written to the driver (direct regime), or
has magnitude below 0.5 while the driver receives the brake current 0.4 (cogging). -/
theorem published_command_is_computed_command (upd : PID → ℚ → ℚ × PID) (freq : Nat)
    (s s1 : State) (v : ℚ) (ev : List Event)
    (hact : s.is_active = true) (hit : gen_thread_iter upd freq s v = some (s1, ev)) :
    (|v| < 150 →
      driver_writes ev = [Event.mc_interface_set_duty 0] ∧ app_brake_current_command s1 = 0) ∧
    (150 ≤ |v| → ∃ p, s.pid = some p ∧
      app_brake_current_command s1 =
        -((SIGN v : ℤ) : ℚ) * (upd p (|v| - s.target_rpm)).1 ∧
      (driver_writes ev = [Event.mc_interface_set_current (app_brake_current_command s1)] ∨
       (driver_writes ev = [Event.mc_interface_set_brake_current (2 / 5)] ∧
        |app_brake_current_command s1| < 1 / 2 ∧
        0 < (upd p (|v| - s.target_rpm)).2.integral))) := by
  constructor
  · intro hv
    rw [gen_thread_iter_of_control upd freq s _ v _ (control_below upd s v hact hv)] at hit
    simp only [Option.some.injEq, Prod.mk.injEq] at hit
    obtain ⟨rfl, rfl⟩ := hit
    refine ⟨?_, by simp [app_brake_current_command]⟩
    by_cases hs : s.stop_now = true <;> simp [hs, driver_writes, Event.isDriverWrite]
  · intro hv
    cases hp : s.pid with
    | none =>
      have := (gen_thread_iter_eq_none upd freq s v).mpr (control_uninit upd s v hact hv hp)
      rw [this] at hit
      simp at hit
    | some p =>
      refine ⟨p, rfl, ?_⟩
      cases hu : upd p (|v| - s.target_rpm) with
      | mk out p1 =>
        by_cases hcog : |out| < 1 / 2 ∧ 0 < p1.integral
        · rw [gen_thread_iter_of_control upd freq s _ v _
            (control_cogging upd s v p p1 out hact hv hp hu hcog)] at hit
          simp only [Option.some.injEq, Prod.mk.injEq] at hit
          obtain ⟨rfl, rfl⟩ := hit
          refine ⟨by simp [app_brake_current_command]; ring, Or.inr ⟨?_, ?_, hcog.2⟩⟩
          · by_cases hs : s.stop_now = true <;> simp [hs, driver_writes, Event.isDriverWrite]
          · simp only [app_brake_current_command, check_stop_brake_current_val,
              abs_mul_neg_SIGN]
            exact hcog.1
        · rw [gen_thread_iter_of_control upd freq s _ v _
            (control_direct upd s v p p1 out hact hv hp hu hcog)] at hit
          simp only [Option.some.injEq, Prod.mk.injEq] at hit
          obtain ⟨rfl, rfl⟩ := hit
          refine ⟨by simp [app_brake_current_command]; ring, Or.inl ?_⟩
          by_cases hs : s.stop_now = true <;>
            simp [hs, driver_writes, Event.isDriverWrite, app_brake_current_command]

/-- Witness for C7, amended: the direct regime at speed 2000 from `primed`. -/
theorem published_command_is_computed_command_witness :
    primed.is_active = true ∧
    gen_thread_iter pid_calc 10000 primed 2000 =
      some (braking_2000,
            [Event.mc_interface_get_rpm, Event.pid_calc boot_filter 1000,
             Event.mc_interface_set_current (-(1003 / 200)),
             Event.chThdSleep 10, Event.timeout_reset]) ∧
    (|(2000 : ℚ)| < 150 →
      driver_writes [Event.mc_interface_get_rpm, Event.pid_calc boot_filter 1000,
             Event.mc_interface_set_current (-(1003 / 200)),
             Event.chThdSleep 10, Event.timeout_reset] = [Event.mc_interface_set_duty 0] ∧
      app_brake_current_command braking_2000 = 0) ∧
    ((150 : ℚ) ≤ |(2000 : ℚ)| → ∃ p, primed.pid = some p ∧
      app_brake_current_command braking_2000 =
        -((SIGN 2000 : ℤ) : ℚ) * (pid_calc p (|(2000 : ℚ)| - primed.target_rpm)).1 ∧
      (driver_writes [Event.mc_interface_get_rpm, Event.pid_calc boot_filter 1000,
             Event.mc_interface_set_current (-(1003 / 200)),
             Event.chThdSleep 10, Event.timeout_reset] =
          [Event.mc_interface_set_current (app_brake_current_command braking_2000)] ∨
       (driver_writes [Event.mc_interface_get_rpm, Event.pid_calc boot_filter 1000,
             Event.mc_interface_set_current (-(1003 / 200)),
             Event.chThdSleep 10, Event.timeout_reset] =
          [Event.mc_interface_set_brake_current (2 / 5)] ∧
        |app_brake_current_command braking_2000| < 1 / 2 ∧
        0 < (pid_calc p (|(2000 : ℚ)| - primed.target_rpm)).2.integral))) :=
  ⟨rfl, gen_thread_iter_primed_2000,
    published_command_is_computed_command pid_calc 10000 primed braking_2000 2000 _ rfl
      gen_thread_iter_primed_2000⟩

/-! The regime tag along runs -/

/-- An enabled control block ends with tag 1, 2 or 3; a disabled one changes nothing. -/
theorem control_calc_mode (upd : PID → ℚ → ℚ × PID) (s s1 : State) (v : ℚ) (ev : List Event)
    (h : control upd s v = some (s1, ev)) :
    (s.is_active = true → s1.calc_mode = 1 ∨ s1.calc_mode = 2 ∨ s1.calc_mode = 3) ∧
    (s.is_active = false → s1 = s) := by
  by_cases hact : s.is_active = true
  · refine ⟨fun _ => ?_, fun hf => by rw [hact] at hf; cases hf⟩
    by_cases hv : |v| < 150
    · rw [control_below upd s v hact hv] at h
      simp only [Option.some.injEq, Prod.mk.injEq] at h
      rw [← h.1]; exact Or.inl rfl
    · have hv2 : 150 ≤ |v| := not_lt.mp hv
      cases hp : s.pid with
      | none => rw [control_uninit upd s v hact hv2 hp] at h; simp at h
      | some p =>
        cases hu : upd p (|v| - s.target_rpm) with
        | mk out p1 =>
          by_cases hcog : |out| < 1 / 2 ∧ 0 < p1.integral
          · rw [control_cogging upd s v p p1 out hact hv2 hp hu hcog] at h
            simp only [Option.some.injEq, Prod.mk.injEq] at h
            rw [← h.1]; exact Or.inr (Or.inl rfl)
          · rw [control_direct upd s v p p1 out hact hv2 hp hu hcog] at h
            simp only [Option.some.injEq, Prod.mk.injEq] at h
            rw [← h.1]; exact Or.inr (Or.inr rfl)
  · have hf : s.is_active = false := by simpa using hact
    refine ⟨fun ht => absurd ht hact, fun _ => ?_⟩
    rw [control_disabled upd s v hf] at h
    simp only [Option.some.injEq, Prod.mk.injEq] at h
    exact h.1.symm

/-- The tag after an iteration that returns. -/
theorem gen_thread_iter_calc_mode (upd : PID → ℚ → ℚ × PID) (freq : Nat) (s s1 : State)
    (v : ℚ) (ev : List Event) (h : gen_thread_iter upd freq s v = some (s1, ev)) :
    (s.is_active = true → s1.calc_mode = 1 ∨ s1.calc_mode = 2 ∨ s1.calc_mode = 3) ∧
    (s.is_active = false → s1.calc_mode = s.calc_mode) := by
  cases hc : control upd s v with
  | none => rw [(gen_thread_iter_eq_none upd freq s v).mpr hc] at h; simp at h
  | some r =>
    obtain ⟨sx, ex⟩ := r
    rw [gen_thread_iter_of_control upd freq s sx v ex hc] at h
    simp only [Option.some.injEq, Prod.mk.injEq] at h
    have := control_calc_mode upd s sx v ex hc
    rw [← h.1]
    refine ⟨fun ha => by simpa using this.1 ha, fun hf => ?_⟩
    rw [check_stop_calc_mode, this.2 hf]

/-- No action takes the tag above 3. -/
theorem exec_calc_mode_le (upd : PID → ℚ → ℚ × PID) (scan : String → Option ℚ) (freq : Nat)
    (s s1 : State) (a : Action) (ev : List Event) (hs : s.calc_mode ≤ 3)
    (h : exec upd scan freq s a = some (s1, ev)) : s1.calc_mode ≤ 3 := by
  cases a with
  | start =>
    simp only [exec] at h
    split_ifs at h
    simp only [Option.some.injEq, Prod.mk.injEq] at h
    rw [← h.1]; exact hs
  | stop =>
    simp only [exec, Option.some.injEq, Prod.mk.injEq] at h
    rw [← h.1]; exact hs
  | tick v =>
    simp only [exec] at h
    split_ifs at h
    · have := gen_thread_iter_calc_mode upd freq s s1 v ev h
      by_cases ha : s.is_active = true
      · rcases this.1 ha with e | e | e <;> omega
      · rw [this.2 (by simpa using ha)]; exact hs
    · simp only [Option.some.injEq, Prod.mk.injEq] at h
      rw [← h.1]; exact hs
  | terminal argv =>
    simp only [exec, Option.some.injEq] at h
    have e : s1 = (terminal_cmd_brake_status scan s argv).1 := by rw [h]
    rw [e, (terminal_cmd_frame scan s argv).2.1]; exact hs

/-- Along every run the tag stays at most 3. -/
theorem run_calc_mode_le (upd : PID → ℚ → ℚ × PID) (scan : String → Option ℚ) (freq : Nat)
    (acts : List Action) :
    ∀ (s s2 : State) (ev : List Event), s.calc_mode ≤ 3 →
      run upd scan freq s acts = some (s2, ev) → s2.calc_mode ≤ 3 := by
  induction acts with
  | nil =>
    intro s s2 ev hs h
    simp only [run, Option.some.injEq, Prod.mk.injEq] at h
    rw [← h.1]; exact hs
  | cons a rest ih =>
    intro s s2 ev hs h
    rw [run_cons] at h
    cases hex : exec upd scan freq s a with
    | none => rw [hex] at h; simp at h
    | some r =>
      obtain ⟨s1, e1⟩ := r
      rw [hex] at h
      simp only [] at h
      cases hr : run upd scan freq s1 rest with
      | none => rw [hr] at h; simp at h
      | some r2 =>
        obtain ⟨s3, e3⟩ := r2
        rw [hr] at h
        simp only [Option.some.injEq, Prod.mk.injEq] at h
        rw [← h.1]
        exact ih s1 s3 e3 (exec_calc_mode_le upd scan freq s s1 a e1 hs hex) hr

/-- The packed status for a tag of at most 3. -/
theorem app_brake_status_of_le (s : State) (h : s.calc_mode ≤ 3) :
    app_brake_status s =
      (if s.is_active then 1 else 0) + (if s.is_running then 2 else 0) + s.calc_mode * 16 := by
  unfold app_brake_status
  have hm : s.calc_mode = 0 ∨ s.calc_mode = 1 ∨ s.calc_mode = 2 ∨ s.calc_mode = 3 := by omega
  rcases hm with e | e | e | e <;> rw [e] <;>
    cases s.is_active <;> cases s.is_running <;> decide

/-- Decoding the sum of the three fields. -/
theorem pack_decode (a r : Bool) (m : Nat) (hm : m ≤ 3) :
    (if a then 1 else 0) + (if r then 2 else 0) + m * 16 < 128 ∧
    (((if a then 1 else 0) + (if r then 2 else 0) + m * 16) &&& 1 = 1 ↔ a = true) ∧
    (((if a then 1 else 0) + (if r then 2 else 0) + m * 16) &&& 2 = 2 ↔ r = true) ∧
    ((if a then 1 else 0) + (if r then 2 else 0) + m * 16) >>> 4 = m := by
  have h : m = 0 ∨ m = 1 ∨ m = 2 ∨ m = 3 := by omega
  rcases h with e | e | e | e <;> subst e <;> cases a <;> cases r <;> decide

/-- The sum of the three fields determines them. -/
theorem pack_injective (a r a1 r1 : Bool) (m m1 : Nat)
    (h : (if a then 1 else 0) + (if r then 2 else 0) + m * 16 =
      (if a1 then 1 else 0) + (if r1 then 2 else 0) + m1 * 16) :
    a = a1 ∧ r = r1 ∧ m = m1 := by
  cases a <;> cases r <;> cases a1 <;> cases r1 <;> simp at h ⊢ <;> omega

/-- From boot: start, `on`, one iteration at speed 100. -/
theorem run_boot_to_primed :
    run pid_calc scan_decimal 10000 boot
      [Action.start, Action.terminal ["brake", "on"], Action.tick 100] =
      some (primed, [Event.mc_interface_get_rpm, Event.pid_init boot_filter,
        Event.mc_interface_set_duty 0, Event.chThdSleep 10, Event.timeout_reset]) := by
  have h2 : run pid_calc scan_decimal 10000 boot
      [Action.start, Action.terminal ["brake", "on"]] = some (started_on, []) := by
    simp [run, exec, terminal_cmd_brake_status, app_custom_start, gen_thread_entry, boot,
      started_on]
  have hi : gen_thread_iter pid_calc 10000 started_on 100 =
      some (primed, [Event.mc_interface_get_rpm, Event.pid_init boot_filter,
        Event.mc_interface_set_duty 0, Event.chThdSleep 10, Event.timeout_reset]) := by
    rw [gen_thread_iter_of_control pid_calc 10000 _ _ 100 _
      (control_below pid_calc _ 100 rfl (by norm_num [abs_of_nonneg]))]
    simp [check_stop, primed, started_on, boot, boot_filter, sleep_time, to_systime, SYSTIME_BITS, SLEEP_TIME,
      GEN_UPDATE_RATE_HZ]
  have h3 : run pid_calc scan_decimal 10000 started_on [Action.tick 100] =
      some (primed, [Event.mc_interface_get_rpm, Event.pid_init boot_filter,
        Event.mc_interface_set_duty 0, Event.chThdSleep 10, Event.timeout_reset]) := by
    have hr : started_on.is_running = true := rfl
    simp only [run, exec, hr, if_true, hi, List.append_nil]
  have := run_append pid_calc scan_decimal 10000
    [Action.start, Action.terminal ["brake", "on"]] [Action.tick 100] boot
  rw [h2] at this
  simp only [h3, List.nil_append] at this
  exact this

/-- C8: in every state reached from boot by starts, stop requests, loop iterations and
terminal commands, `calc_mode` is at most 3 (and is 1, 2 or 3 after any enabled iteration
that returns); `app_brake_status` is exactly `is_active * 1 + is_running * 2 +
calc_mode * 16`, below 128, so nothing is lost in the `char`; bit 0 is `is_active`, bit 1
is `is_running`, the value shifted right by 4 is `calc_mode`; and two reachable states
with the same packed status agree on all three fields. -/
theorem status_packing_lossless (upd : PID → ℚ → ℚ × PID) (scan : String → Option ℚ)
    (freq : Nat) (acts : List Action) (s : State) (ev : List Event)
    (hrun : run upd scan freq boot acts = some (s, ev)) :
    s.calc_mode ≤ 3 ∧
    (∀ (v : ℚ) (s1 : State) (e1 : List Event), s.is_active = true →
      gen_thread_iter upd freq s v = some (s1, e1) →
      s1.calc_mode = 1 ∨ s1.calc_mode = 2 ∨ s1.calc_mode = 3) ∧
    app_brake_status s =
      (if s.is_active then 1 else 0) + (if s.is_running then 2 else 0) + s.calc_mode * 16 ∧
    app_brake_status s < 128 ∧
    (app_brake_status s &&& 1 = 1 ↔ s.is_active = true) ∧
    (app_brake_status s &&& 2 = 2 ↔ s.is_running = true) ∧
    app_brake_status s >>> 4 = s.calc_mode ∧
    (∀ (acts1 : List Action) (t : State) (ev1 : List Event),
      run upd scan freq boot acts1 = some (t, ev1) →
      app_brake_status s = app_brake_status t →
      s.is_active = t.is_active ∧ s.is_running = t.is_running ∧ s.calc_mode = t.calc_mode) := by
  have hm : s.calc_mode ≤ 3 :=
    run_calc_mode_le upd scan freq acts boot s ev (by decide) hrun
  have hst := app_brake_status_of_le s hm
  obtain ⟨d1, d2, d3, d4⟩ := pack_decode s.is_active s.is_running s.calc_mode hm
  refine ⟨hm, ?_, hst, ?_, ?_, ?_, ?_, ?_⟩
  · intro v s1 e1 ha h
    exact (gen_thread_iter_calc_mode upd freq s s1 v e1 h).1 ha
  · rw [hst]; exact d1
  · rw [hst]; exact d2
  · rw [hst]; exact d3
  · rw [hst]; exact d4
  · intro acts1 t ev1 ht heq
    have hmt : t.calc_mode ≤ 3 :=
      run_calc_mode_le upd scan freq acts1 boot t ev1 (by decide) ht
    rw [hst, app_brake_status_of_le t hmt] at heq
    exact pack_injective _ _ _ _ _ _ heq

/-- Witness for C8: the state reached from boot by start, `on` and one iteration at
speed 100; its packed status is 19. -/
theorem status_packing_lossless_witness :
    run pid_calc scan_decimal 10000 boot
      [Action.start, Action.terminal ["brake", "on"], Action.tick 100] =
      some (primed, [Event.mc_interface_get_rpm, Event.pid_init boot_filter,
        Event.mc_interface_set_duty 0, Event.chThdSleep 10, Event.timeout_reset]) ∧
    app_brake_status primed = 19 ∧
    primed.calc_mode ≤ 3 ∧
    (∀ (v : ℚ) (s1 : State) (e1 : List Event), primed.is_active = true →
      gen_thread_iter pid_calc 10000 primed v = some (s1, e1) →
      s1.calc_mode = 1 ∨ s1.calc_mode = 2 ∨ s1.calc_mode = 3) ∧
    app_brake_status primed =
      (if primed.is_active then 1 else 0) + (if primed.is_running then 2 else 0) +
        primed.calc_mode * 16 ∧
    app_brake_status primed < 128 ∧
    (app_brake_status primed &&& 1 = 1 ↔ primed.is_active = true) ∧
    (app_brake_status primed &&& 2 = 2 ↔ primed.is_running = true) ∧
    app_brake_status primed >>> 4 = primed.calc_mode ∧
    (∀ (acts1 : List Action) (t : State) (ev1 : List Event),
      run pid_calc scan_decimal 10000 boot acts1 = some (t, ev1) →
      app_brake_status primed = app_brake_status t →
      primed.is_active = t.is_active ∧ primed.is_running = t.is_running ∧
        primed.calc_mode = t.calc_mode) :=
  ⟨run_boot_to_primed, by decide,
    status_packing_lossless pid_calc scan_decimal 10000 _ primed _ run_boot_to_primed⟩

/-! The terminal command on malformed numbers -/

theorem scan_decimal_abc : scan_decimal "abc" = none := by decide

theorem scan_decimal_2_5 : scan_decimal "2.5" = some (5 / 2) := by
  have h : scan_parts ("2.5".toList.dropWhile Char.isWhitespace) = some (false, 25, 1) := by
    decide
  unfold scan_decimal
  rw [h]
  norm_num

/-- C9: in every state, for every argument on which the `%f` conversion matches nothing,
each of the commands `rpm <arg>`, `kp <arg>`, `ki <arg>`, `kd <arg>` returns the state
unchanged (target speed, gains, enabled flag and everything else) and calls no
collaborator, in particular not the motor driver. -/
theorem malformed_number_keeps_configuration (scan : String → Option ℚ) (s : State)
    (name verb arg : String)
    (hverb : verb = "rpm" ∨ verb = "kp" ∨ verb = "ki" ∨ verb = "kd")
    (hbad : scan arg = none) :
    terminal_cmd_brake_status scan s [name, verb, arg] = (s, []) := by
  rcases hverb with h | h | h | h <;> subst h <;>
    simp [terminal_cmd_brake_status, sscanf_f, hbad]

/-- Witness for C9: `rpm abc` in the boot state. -/
theorem malformed_number_keeps_configuration_witness :
    ("rpm" = "rpm" ∨ "rpm" = "kp" ∨ "rpm" = "ki" ∨ "rpm" = "kd") ∧
    scan_decimal "abc" = none ∧
    terminal_cmd_brake_status scan_decimal boot ["brake", "rpm", "abc"] = (boot, []) :=
  ⟨Or.inl rfl, scan_decimal_abc,
    malformed_number_keeps_configuration scan_decimal boot "brake" "rpm" "abc" (Or.inl rfl)
      scan_decimal_abc⟩

/-- C10 as stated fails: `lim abc`, on which the conversion matches nothing, calls
`mc_interface_set_current_limit2` with the initial value 0.0 of the local `limit`. -/
theorem malformed_limit_is_forwarded_as_zero :
    scan_decimal "abc" = none ∧
    terminal_cmd_brake_status scan_decimal boot ["brake", "lim", "abc"] =
      (boot, [Event.mc_interface_set_current_limit2 0]) ∧
    driver_writes (terminal_cmd_brake_status scan_decimal boot ["brake", "lim", "abc"]).2 ≠ [] := by
  have h : terminal_cmd_brake_status scan_decimal boot ["brake", "lim", "abc"] =
      (boot, [Event.mc_interface_set_current_limit2 0]) := by
    simp [terminal_cmd_brake_status, sscanf_f, scan_decimal_abc]
  refine ⟨scan_decimal_abc, h, ?_⟩
  rw [h]
  simp [driver_writes, Event.isDriverWrite]

/-- C10, amended: in every state the command `lim <arg>` leaves the state unchanged and
makes exactly one call, `mc_interface_set_current_limit2(limit)`, where `limit` is the
converted value `v` when the `%f` conversion of `<arg>` succeeds with `v`, and 0 when
it matches nothing. -/
theorem limit_is_always_forwarded (scan : String → Option ℚ) (s : State)
    (name arg : String) :
    terminal_cmd_brake_status scan s [name, "lim", arg] =
        (s, [Event.mc_interface_set_current_limit2 ((scan arg).getD 0)]) ∧
    (scan arg = none →
      terminal_cmd_brake_status scan s [name, "lim", arg] =
        (s, [Event.mc_interface_set_current_limit2 0])) ∧
    (∀ v, scan arg = some v →
      terminal_cmd_brake_status scan s [name, "lim", arg] =
        (s, [Event.mc_interface_set_current_limit2 v])) := by
  have h : terminal_cmd_brake_status scan s [name, "lim", arg] =
      (s, [Event.mc_interface_set_current_limit2 ((scan arg).getD 0)]) := by
    cases hs : scan arg <;> simp [terminal_cmd_brake_status, sscanf_f, hs]
  refine ⟨h, ?_, ?_⟩
  · intro hn; rw [h, hn]; rfl
  · intro v hv; rw [h, hv]; rfl

/-- Witness for C10, amended: `lim 2.5` forwards 2.5 and `lim abc` forwards 0. -/
theorem limit_is_always_forwarded_witness :
    scan_decimal "2.5" = some (5 / 2) ∧
    terminal_cmd_brake_status scan_decimal boot ["brake", "lim", "2.5"] =
      (boot, [Event.mc_interface_set_current_limit2 (5 / 2)]) ∧
    scan_decimal "xyz" = none ∧
    terminal_cmd_brake_status scan_decimal boot ["brake", "lim", "xyz"] =
      (boot, [Event.mc_interface_set_current_limit2 0]) :=
  ⟨scan_decimal_2_5,
    (limit_is_always_forwarded scan_decimal boot "brake" "2.5").2.2 (5 / 2) scan_decimal_2_5,
    by decide,
    (limit_is_always_forwarded scan_decimal boot "brake" "xyz").2.1 (by decide)⟩

/-! The gain and enable commands -/

theorem scan_decimal_0_01 : scan_decimal "0.01" = some (1 / 100) := by
  have h : scan_parts ("0.01".toList.dropWhile Char.isWhitespace) = some (false, 1, 2) := by
    decide
  unfold scan_decimal
  rw [h]
  norm_num

theorem scan_decimal_0_02 : scan_decimal "0.02" = some (1 / 50) := by
  have h : scan_parts ("0.02".toList.dropWhile Char.isWhitespace) = some (false, 2, 2) := by
    decide
  unfold scan_decimal
  rw [h]
  norm_num

theorem scan_decimal_0 : scan_decimal "0" = some 0 := by
  have h : scan_parts ("0".toList.dropWhile Char.isWhitespace) = some (false, 0, 0) := by
    decide
  unfold scan_decimal
  rw [h]
  norm_num

theorem scan_decimal_0_05 : scan_decimal "0.05" = some (1 / 20) := by
  have h : scan_parts ("0.05".toList.dropWhile Char.isWhitespace) = some (false, 5, 2) := by
    decide
  unfold scan_decimal
  rw [h]
  norm_num

/-- C11: in every state, for arguments that convert to the numbers `a`, `b`, `c`, `d`:
`pid <a> <b> <c>` stores `a` in `Kp`, `b` in `Ki` and `c` in `Kd`; `kp <d>`, `ki <d>`,
`kd <d>` store `d` in their own gain only; every other variable (target speed, enabled
flag, the other gains, the loop's data) keeps its value and no collaborator is called. -/
theorem gain_commands_write_their_gains (scan : String → Option ℚ) (s : State)
    (name sa sb sc sd : String) (a b c d : ℚ)
    (ha : scan sa = some a) (hb : scan sb = some b) (hc : scan sc = some c)
    (hd : scan sd = some d) :
    terminal_cmd_brake_status scan s [name, "pid", sa, sb, sc] =
      ({ s with Kp := a, Ki := b, Kd := c }, []) ∧
    terminal_cmd_brake_status scan s [name, "kp", sd] = ({ s with Kp := d }, []) ∧
    terminal_cmd_brake_status scan s [name, "ki", sd] = ({ s with Ki := d }, []) ∧
    terminal_cmd_brake_status scan s [name, "kd", sd] = ({ s with Kd := d }, []) := by
  refine ⟨?_, ?_, ?_, ?_⟩ <;>
    simp [terminal_cmd_brake_status, sscanf_f, ha, hb, hc, hd]

/-- Witness for C11: `pid 0.01 0.02 0` followed by `kp 0.05` from the boot state leaves
the gains at (0.05, 0.02, 0). -/
theorem gain_commands_write_their_gains_witness :
    scan_decimal "0.01" = some (1 / 100) ∧ scan_decimal "0.02" = some (1 / 50) ∧
    scan_decimal "0" = some 0 ∧ scan_decimal "0.05" = some (1 / 20) ∧
    terminal_cmd_brake_status scan_decimal boot ["brake", "pid", "0.01", "0.02", "0"] =
      ({ boot with Kp := 1 / 100, Ki := 1 / 50, Kd := 0 }, []) ∧
    terminal_cmd_brake_status scan_decimal
        { boot with Kp := 1 / 100, Ki := 1 / 50, Kd := 0 } ["brake", "kp", "0.05"] =
      ({ boot with Kp := 1 / 20, Ki := 1 / 50, Kd := 0 }, []) :=
  ⟨scan_decimal_0_01, scan_decimal_0_02, scan_decimal_0, scan_decimal_0_05,
    (gain_commands_write_their_gains scan_decimal boot "brake" "0.01" "0.02" "0" "0.05"
      (1 / 100) (1 / 50) 0 (1 / 20)
      scan_decimal_0_01 scan_decimal_0_02 scan_decimal_0 scan_decimal_0_05).1,
    (gain_commands_write_their_gains scan_decimal
      { boot with Kp := 1 / 100, Ki := 1 / 50, Kd := 0 } "brake" "0.01" "0.02" "0" "0.05"
      (1 / 100) (1 / 50) 0 (1 / 20)
      scan_decimal_0_01 scan_decimal_0_02 scan_decimal_0 scan_decimal_0_05).2.1⟩

/-- C12: in every state the command `on` sets `is_active` to true and `off` sets it to
false; every other variable keeps its value and no collaborator is called, in particular
not the motor driver; `off` after `off` gives the same state as one `off`, with
`is_active` false. -/
theorem on_off_set_enabled_flag (scan : String → Option ℚ) (s : State) (name : String) :
    terminal_cmd_brake_status scan s [name, "on"] = ({ s with is_active := true }, []) ∧
    terminal_cmd_brake_status scan s [name, "off"] = ({ s with is_active := false }, []) ∧
    terminal_cmd_brake_status scan (terminal_cmd_brake_status scan s [name, "off"]).1
        [name, "off"] = terminal_cmd_brake_status scan s [name, "off"] ∧
    (terminal_cmd_brake_status scan (terminal_cmd_brake_status scan s [name, "off"]).1
        [name, "off"]).1.is_active = false ∧
    driver_writes (terminal_cmd_brake_status scan s [name, "on"]).2 = [] ∧
    driver_writes (terminal_cmd_brake_status scan s [name, "off"]).2 = [] := by
  refine ⟨?_, ?_, ?_, ?_, ?_, ?_⟩ <;>
    simp [terminal_cmd_brake_status, driver_writes]

/-! The filter across enabled iterations -/

/-- An enabled iteration at or above the threshold with an assigned filter `p` returns:
one PID update, on `p` and the error `|speed| - target_rpm`; the filter, the published
error and the published integral afterwards. -/
theorem gen_thread_iter_active (upd : PID → ℚ → ℚ × PID) (freq : Nat) (s : State) (v : ℚ)
    (p : PID) (hact : s.is_active = true) (hv : 150 ≤ |v|) (hp : s.pid = some p) :
    ∃ s1 ev, gen_thread_iter upd freq s v = some (s1, ev) ∧
      pid_updates ev = [Event.pid_calc p (|v| - s.target_rpm)] ∧
      s1.pid = some (upd p (|v| - s.target_rpm)).2 ∧
      s1.brake_rpm_error = (|v| - s.target_rpm) / 1000 ∧
      s1.brake_current_val = (upd p (|v| - s.target_rpm)).1 * -((SIGN v : ℤ) : ℚ) ∧
      s1.current_integral_val = (upd p (|v| - s.target_rpm)).2.integral ∧
      (s1.calc_mode = 2 ∨ s1.calc_mode = 3) ∧
      (driver_writes ev = [Event.mc_interface_set_brake_current (2 / 5)] ∨
       driver_writes ev = [Event.mc_interface_set_current
         ((upd p (|v| - s.target_rpm)).1 * -((SIGN v : ℤ) : ℚ))]) := by
  cases hu : upd p (|v| - s.target_rpm) with
  | mk out p1 =>
    by_cases hcog : |out| < 1 / 2 ∧ 0 < p1.integral
    · refine ⟨_, _, gen_thread_iter_of_control upd freq s _ v _
        (control_cogging upd s v p p1 out hact hv hp hu hcog), ?_, ?_, ?_, ?_, ?_, ?_, ?_⟩
      · by_cases hs : s.stop_now = true <;> simp [hs, pid_updates]
      · simp
      · simp
      · simp
      · simp
      · simp
      · left
        by_cases hs : s.stop_now = true <;> simp [hs, driver_writes, Event.isDriverWrite]
    · refine ⟨_, _, gen_thread_iter_of_control upd freq s _ v _
        (control_direct upd s v p p1 out hact hv hp hu hcog), ?_, ?_, ?_, ?_, ?_, ?_, ?_⟩
      · by_cases hs : s.stop_now = true <;> simp [hs, pid_updates]
      · simp
      · simp
      · simp
      · simp
      · simp
      · right
        by_cases hs : s.stop_now = true <;> simp [hs, driver_writes, Event.isDriverWrite]

/-- From `braking_2000`: `off`, a disabled iteration, `on`. -/
theorem run_braking_2000_off_on :
    run pid_calc scan_decimal 10000 braking_2000
      [Action.terminal ["brake", "off"], Action.tick 2000, Action.terminal ["brake", "on"]] =
      some (braking_2000, [Event.chThdSleep 10, Event.timeout_reset]) := by
  simp [run, exec, terminal_cmd_brake_status, gen_thread_iter, gen_thread_tick, control, control_block,
    check_stop, braking_2000, primed, started_on, boot, sleep_time, to_systime, SYSTIME_BITS, SLEEP_TIME,
    GEN_UPDATE_RATE_HZ]

theorem disabled_ticks_only_braking_2000_off_on :
    disabled_ticks_only pid_calc scan_decimal 10000 braking_2000
      [Action.terminal ["brake", "off"], Action.tick 2000, Action.terminal ["brake", "on"]] =
      true := by
  simp [disabled_ticks_only, exec, terminal_cmd_brake_status, gen_thread_iter, gen_thread_tick, control, control_block,
    check_stop, braking_2000, primed, started_on, boot]

/-- From `primed`: an iteration at speed 2000, `off`, a disabled iteration, `on`. -/
theorem run_primed_pause :
    run pid_calc scan_decimal 10000 primed
      [Action.tick 2000, Action.terminal ["brake", "off"], Action.tick 2000,
       Action.terminal ["brake", "on"]] =
      some (braking_2000,
        [Event.mc_interface_get_rpm, Event.pid_calc boot_filter 1000,
         Event.mc_interface_set_current (-(1003 / 200)),
         Event.chThdSleep 10, Event.timeout_reset,
         Event.chThdSleep 10, Event.timeout_reset]) := by
  have h1 : run pid_calc scan_decimal 10000 primed [Action.tick 2000] =
      some (braking_2000,
        [Event.mc_interface_get_rpm, Event.pid_calc boot_filter 1000,
         Event.mc_interface_set_current (-(1003 / 200)),
         Event.chThdSleep 10, Event.timeout_reset]) := by
    have hr : primed.is_running = true := rfl
    simp only [run, exec, hr, if_true, gen_thread_iter_primed_2000, List.append_nil]
  have := run_append pid_calc scan_decimal 10000 [Action.tick 2000]
    [Action.terminal ["brake", "off"], Action.tick 2000, Action.terminal ["brake", "on"]] primed
  rw [h1] at this
  simp only [run_braking_2000_off_on] at this
  simpa using this

/-- C13 as stated fails: from `primed`, an iteration at speed 2000 leaves the filter
with integral 1; after `off`, a disabled iteration and `on`, with no below-threshold
iteration in between, the next iteration at speed 2000 calls `pid_calc` on that same
filter, whose integral is 1, not 0. -/
theorem integral_survives_off_on :
    ∃ s2 e2 s3 e3 p,
      run pid_calc scan_decimal 10000 primed
        [Action.tick 2000, Action.terminal ["brake", "off"], Action.tick 2000,
         Action.terminal ["brake", "on"]] = some (s2, e2) ∧
      s2.is_active = true ∧
      gen_thread_iter pid_calc 10000 s2 2000 = some (s3, e3) ∧
      pid_updates e3 = [Event.pid_calc p 1000] ∧
      p.integral = 1 ∧ p.integral ≠ 0 := by
  obtain ⟨s3, e3, h3, hu, _⟩ := gen_thread_iter_active pid_calc 10000 braking_2000 2000
    { boot_filter with pre_error := 1000, integral := 1 } rfl (by norm_num [abs_of_nonneg]) rfl
  have e : |(2000 : ℚ)| - braking_2000.target_rpm = 1000 := by
    norm_num [abs_of_nonneg, braking_2000, primed, started_on, boot]
  rw [e] at hu
  exact ⟨_, _, s3, e3, _, run_primed_pause, rfl, h3, hu, rfl, by norm_num⟩

/-- C13, amended: from every loop state, if an enabled iteration with `150 ≤ |speed|`
(active braking) is followed, after any sequence of terminal commands (such as `off` and
`on`) and disabled iterations, by an enabled iteration with `150 ≤ |speed|`, then the
later iteration returns and its PID update is called on the filter exactly as the
earlier update left it: the integral is carried over, not reset. -/
theorem filter_carried_over_off_on (upd : PID → ℚ → ℚ × PID)
    (scan : String → Option ℚ) (freq : Nat) (s0 s1 s2 : State) (e1 e2 : List Event)
    (v1 v2 : ℚ) (mid : List Action) (p : PID)
    (hact0 : s0.is_active = true) (hv1 : 150 ≤ |v1|) (hp : s0.pid = some p)
    (h1 : gen_thread_iter upd freq s0 v1 = some (s1, e1))
    (hmid : disabled_ticks_only upd scan freq s1 mid = true)
    (hrun : run upd scan freq s1 mid = some (s2, e2))
    (hact2 : s2.is_active = true) (hv2 : 150 ≤ |v2|) :
    ∃ s3 e3, gen_thread_iter upd freq s2 v2 = some (s3, e3) ∧
      pid_updates e3 =
        [Event.pid_calc (upd p (|v1| - s0.target_rpm)).2 (|v2| - s2.target_rpm)] ∧
      pid_updates e2 = [] := by
  obtain ⟨sa, ea, ha, _, hpa, _⟩ := gen_thread_iter_active upd freq s0 v1 p hact0 hv1 hp
  rw [h1] at ha
  simp only [Option.some.injEq, Prod.mk.injEq] at ha
  obtain ⟨rfl, rfl⟩ := ha
  obtain ⟨hpid, hno⟩ := disabled_run_keeps_pid upd scan freq mid s1 s2 e2 hmid hrun
  obtain ⟨s3, e3, h3, hu, _⟩ := gen_thread_iter_active upd freq s2 v2 _ hact2 hv2
    (by rw [hpid, hpa])
  exact ⟨s3, e3, h3, hu, hno⟩

/-- Witness for C13, amended: from `primed`, an iteration at speed 2000, then `off`, a
disabled iteration and `on`, then an iteration at speed 2000: the update runs on the
filter with integral 1 that the first iteration left. -/
theorem filter_carried_over_off_on_witness :
    primed.is_active = true ∧ (150 : ℚ) ≤ |(2000 : ℚ)| ∧ primed.pid = some boot_filter ∧
    gen_thread_iter pid_calc 10000 primed 2000 =
      some (braking_2000,
            [Event.mc_interface_get_rpm, Event.pid_calc boot_filter 1000,
             Event.mc_interface_set_current (-(1003 / 200)),
             Event.chThdSleep 10, Event.timeout_reset]) ∧
    disabled_ticks_only pid_calc scan_decimal 10000 braking_2000
      [Action.terminal ["brake", "off"], Action.tick 2000, Action.terminal ["brake", "on"]] =
      true ∧
    run pid_calc scan_decimal 10000 braking_2000
      [Action.terminal ["brake", "off"], Action.tick 2000, Action.terminal ["brake", "on"]] =
      some (braking_2000, [Event.chThdSleep 10, Event.timeout_reset]) ∧
    braking_2000.is_active = true ∧
    (pid_calc boot_filter (|(2000 : ℚ)| - primed.target_rpm)).2.integral = 1 ∧
    ∃ s3 e3, gen_thread_iter pid_calc 10000 braking_2000 2000 = some (s3, e3) ∧
      pid_updates e3 =
        [Event.pid_calc (pid_calc boot_filter (|(2000 : ℚ)| - primed.target_rpm)).2
          (|(2000 : ℚ)| - braking_2000.target_rpm)] ∧
      pid_updates [Event.chThdSleep 10, Event.timeout_reset] = [] :=
  have e : |(2000 : ℚ)| - primed.target_rpm = 1000 := by
    norm_num [abs_of_nonneg, primed, started_on, boot]
  ⟨rfl, by norm_num [abs_of_nonneg], rfl, gen_thread_iter_primed_2000,
    disabled_ticks_only_braking_2000_off_on, run_braking_2000_off_on, rfl,
    by rw [e, pid_calc_boot_filter_1000],
    filter_carried_over_off_on pid_calc scan_decimal 10000 primed braking_2000 braking_2000
      _ _ 2000 2000 _ boot_filter rfl (by norm_num [abs_of_nonneg]) rfl
      gen_thread_iter_primed_2000 disabled_ticks_only_braking_2000_off_on
      run_braking_2000_off_on rfl (by norm_num [abs_of_nonneg])⟩

/-! Configuration writes and the next iteration -/

/-- What an enabled iteration below the threshold returns. -/
theorem gen_thread_iter_below (upd : PID → ℚ → ℚ × PID) (freq : Nat) (s : State) (v : ℚ)
    (hact : s.is_active = true) (hv : |v| < 150) :
    ∃ s1 ev, gen_thread_iter upd freq s v = some (s1, ev) ∧
      pid_updates ev = [] ∧
      driver_writes ev = [Event.mc_interface_set_duty 0] ∧
      s1.pid = some (pid_init (1 / 1000) 20 0 s.Kp s.Kd s.Ki) ∧
      s1.calc_mode = 1 ∧
      s1.brake_rpm_error = (|v| - s.target_rpm) / 1000 ∧
      s1.brake_current_val = 0 ∧
      s1.current_integral_val = 0 := by
  refine ⟨_, _, gen_thread_iter_of_control upd freq s _ v _ (control_below upd s v hact hv),
    ?_, ?_, ?_, ?_, ?_, ?_, ?_⟩
  · by_cases hs : s.stop_now = true <;> simp [hs, pid_updates]
  · by_cases hs : s.stop_now = true <;> simp [hs, driver_writes, Event.isDriverWrite]
  · simp
  · simp
  · simp
  · simp
  · simp

/-- C15: after every enabled iteration that returns, on measured speed `v` with target
`t`: `app_brake_rpm_error` returns `(|v| - t) / 1000`, in all three regimes; every PID
update in the iteration is called with the error `|v| - t`, not scaled, and there is
exactly one when `150 ≤ |v|` and none below; `app_brake_current_integral_val` returns
the integral of the filter the loop holds at the end of the iteration. -/
theorem error_fed_unscaled_published_scaled (upd : PID → ℚ → ℚ × PID) (freq : Nat)
    (s s1 : State) (v : ℚ) (ev : List Event)
    (hact : s.is_active = true) (hit : gen_thread_iter upd freq s v = some (s1, ev)) :
    app_brake_rpm_error s1 = (|v| - s.target_rpm) / 1000 ∧
    (∀ p e, Event.pid_calc p e ∈ ev → e = |v| - s.target_rpm) ∧
    (150 ≤ |v| → ∃ p, s.pid = some p ∧
      pid_updates ev = [Event.pid_calc p (|v| - s.target_rpm)]) ∧
    (|v| < 150 → pid_updates ev = []) ∧
    (∃ p1, s1.pid = some p1 ∧ app_brake_current_integral_val s1 = p1.integral) := by
  by_cases hv : |v| < 150
  · obtain ⟨sa, ea, ha, hu, _, hp, _, he, _, hi⟩ := gen_thread_iter_below upd freq s v hact hv
    rw [hit] at ha
    simp only [Option.some.injEq, Prod.mk.injEq] at ha
    obtain ⟨rfl, rfl⟩ := ha
    refine ⟨he, ?_, fun h => absurd hv (not_lt.mpr h), fun _ => hu, _, hp, ?_⟩
    · intro p e hm
      have hm2 : Event.pid_calc p e ∈ pid_updates ev := by simp [pid_updates, hm]
      rw [hu] at hm2; simp at hm2
    · simp [app_brake_current_integral_val, hi, pid_init]
  · have hv2 : 150 ≤ |v| := not_lt.mp hv
    cases hp : s.pid with
    | none =>
      rw [(gen_thread_iter_eq_none upd freq s v).mpr (control_uninit upd s v hact hv2 hp)] at hit
      simp at hit
    | some p =>
      obtain ⟨sa, ea, ha, hu, hpa, he, _, hi, _⟩ := gen_thread_iter_active upd freq s v p hact hv2 hp
      rw [hit] at ha
      simp only [Option.some.injEq, Prod.mk.injEq] at ha
      obtain ⟨rfl, rfl⟩ := ha
      refine ⟨he, ?_, fun _ => ⟨p, rfl, hu⟩, fun h => absurd h hv, _, hpa, hi⟩
      intro q e hm
      have hm2 : Event.pid_calc q e ∈ pid_updates ev := by simp [pid_updates, hm]
      rw [hu] at hm2
      simp only [List.mem_singleton, Event.pid_calc.injEq] at hm2
      exact hm2.2

/-- Witness for C15: the iteration at speed 2000 from `primed` feeds the error 1000 and
publishes the error 1. -/
theorem error_fed_unscaled_published_scaled_witness :
    primed.is_active = true ∧
    gen_thread_iter pid_calc 10000 primed 2000 =
      some (braking_2000,
            [Event.mc_interface_get_rpm, Event.pid_calc boot_filter 1000,
             Event.mc_interface_set_current (-(1003 / 200)),
             Event.chThdSleep 10, Event.timeout_reset]) ∧
    app_brake_rpm_error braking_2000 = (|(2000 : ℚ)| - primed.target_rpm) / 1000 ∧
    (∀ p e, Event.pid_calc p e ∈
        [Event.mc_interface_get_rpm, Event.pid_calc boot_filter 1000,
         Event.mc_interface_set_current (-(1003 / 200)),
         Event.chThdSleep 10, Event.timeout_reset] →
      e = |(2000 : ℚ)| - primed.target_rpm) ∧
    ((150 : ℚ) ≤ |(2000 : ℚ)| → ∃ p, primed.pid = some p ∧
      pid_updates [Event.mc_interface_get_rpm, Event.pid_calc boot_filter 1000,
         Event.mc_interface_set_current (-(1003 / 200)),
         Event.chThdSleep 10, Event.timeout_reset] =
        [Event.pid_calc p (|(2000 : ℚ)| - primed.target_rpm)]) ∧
    (|(2000 : ℚ)| < 150 → pid_updates
        [Event.mc_interface_get_rpm, Event.pid_calc boot_filter 1000,
         Event.mc_interface_set_current (-(1003 / 200)),
         Event.chThdSleep 10, Event.timeout_reset] = []) ∧
    (∃ p1, braking_2000.pid = some p1 ∧
      app_brake_current_integral_val braking_2000 = p1.integral) :=
  ⟨rfl, gen_thread_iter_primed_2000,
    error_fed_unscaled_published_scaled pid_calc 10000 primed braking_2000 2000 _ rfl
      gen_thread_iter_primed_2000⟩

/-! The iteration as a function of speed, configuration and filter -/

/-- The tail of an iteration (sleep, watchdog) holds no driver write and no PID update. -/
theorem iter_tail_filters (freq : Nat) (b : Bool) (ev : List Event) :
    driver_writes (ev ++ Event.chThdSleep (sleep_time freq) ::
      (if b then [] else [Event.timeout_reset])) = driver_writes ev ∧
    pid_updates (ev ++ Event.chThdSleep (sleep_time freq) ::
      (if b then [] else [Event.timeout_reset])) = pid_updates ev := by
  cases b <;> simp [driver_writes, pid_updates, Event.isDriverWrite]

/-- An enabled control block reads, of the state, only the target speed, the gains and
the filter. -/
theorem control_congr (upd : PID → ℚ → ℚ × PID) (s t : State) (v : ℚ)
    (hen : s.is_active = true) (ha : t.is_active = s.is_active)
    (htr : t.target_rpm = s.target_rpm) (hkp : t.Kp = s.Kp) (hki : t.Ki = s.Ki)
    (hkd : t.Kd = s.Kd) (hpid : t.pid = s.pid) :
    (control upd s v = none → control upd t v = none) ∧
    ∀ s1 e1, control upd s v = some (s1, e1) →
      ∃ t1, control upd t v = some (t1, e1) ∧
        t1.pid = s1.pid ∧ t1.calc_mode = s1.calc_mode ∧
        t1.brake_rpm_error = s1.brake_rpm_error ∧
        t1.brake_current_val = s1.brake_current_val ∧
        t1.current_integral_val = s1.current_integral_val := by
  have hent : t.is_active = true := by rw [ha, hen]
  by_cases hv : |v| < 150
  · constructor
    · intro h; rw [control_below upd s v hen hv] at h; simp at h
    · intro s1 e1 h
      rw [control_below upd s v hen hv] at h
      simp only [Option.some.injEq, Prod.mk.injEq] at h
      obtain ⟨rfl, rfl⟩ := h
      rw [control_below upd t v hent hv, hkp, hki, hkd]
      refine ⟨_, rfl, ?_⟩
      simp [htr]
  · have hv2 : 150 ≤ |v| := not_lt.mp hv
    cases hp : s.pid with
    | none =>
      constructor
      · intro _; exact control_uninit upd t v hent hv2 (by rw [hpid, hp])
      · intro s1 e1 h; rw [control_uninit upd s v hen hv2 hp] at h; simp at h
    | some p =>
      have hpt : t.pid = some p := by rw [hpid, hp]
      cases hu : upd p (|v| - s.target_rpm) with
      | mk out p1 =>
        have hut : upd p (|v| - t.target_rpm) = (out, p1) := by rw [htr, hu]
        by_cases hcog : |out| < 1 / 2 ∧ 0 < p1.integral
        · constructor
          · intro h; rw [control_cogging upd s v p p1 out hen hv2 hp hu hcog] at h; simp at h
          · intro s1 e1 h
            rw [control_cogging upd s v p p1 out hen hv2 hp hu hcog] at h
            simp only [Option.some.injEq, Prod.mk.injEq] at h
            obtain ⟨rfl, rfl⟩ := h
            rw [control_cogging upd t v p p1 out hent hv2 hpt hut hcog, htr]
            refine ⟨_, rfl, ?_⟩
            simp
        · constructor
          · intro h; rw [control_direct upd s v p p1 out hen hv2 hp hu hcog] at h; simp at h
          · intro s1 e1 h
            rw [control_direct upd s v p p1 out hen hv2 hp hu hcog] at h
            simp only [Option.some.injEq, Prod.mk.injEq] at h
            obtain ⟨rfl, rfl⟩ := h
            rw [control_direct upd t v p p1 out hent hv2 hpt hut hcog, htr]
            refine ⟨_, rfl, ?_⟩
            simp

/-- C16 as stated fails: the states `paused` and `paused_cleared` agree on the enabled
flag (false), the target speed, the gains and the filter, and differ in the stored tag
and published values; after one iteration on the same speed the tags (3 and 0) and the
published commands (-5.015 and 0) still differ. -/
theorem stored_telemetry_survives_disabled_tick :
    paused.is_active = paused_cleared.is_active ∧
    paused.target_rpm = paused_cleared.target_rpm ∧
    paused.Kp = paused_cleared.Kp ∧ paused.Ki = paused_cleared.Ki ∧
    paused.Kd = paused_cleared.Kd ∧ paused.pid = paused_cleared.pid ∧
    ∃ s1 e1 t1 e2,
      gen_thread_iter pid_calc 10000 paused 2000 = some (s1, e1) ∧
      gen_thread_iter pid_calc 10000 paused_cleared 2000 = some (t1, e2) ∧
      s1.calc_mode = 3 ∧ t1.calc_mode = 0 ∧
      app_brake_current_command s1 = -(1003 / 200) ∧ app_brake_current_command t1 = 0 ∧
      s1.calc_mode ≠ t1.calc_mode ∧
      app_brake_current_command s1 ≠ app_brake_current_command t1 := by
  refine ⟨rfl, rfl, rfl, rfl, rfl, rfl, _, _, _, _,
    gen_thread_iter_disabled pid_calc 10000 paused 2000 rfl,
    gen_thread_iter_disabled pid_calc 10000 paused_cleared 2000 rfl, ?_, ?_, ?_, ?_, ?_, ?_⟩
  · simp [paused, braking_2000]
  · simp [paused_cleared]
  · simp [app_brake_current_command, paused, braking_2000]
  · simp [app_brake_current_command, paused_cleared]
  · simp [paused, paused_cleared, braking_2000]
  · simp [app_brake_current_command, paused, paused_cleared, braking_2000]

/-- C16, amended: for any two loop states with the controller enabled that agree on the
target speed, the gains and the filter, and differ arbitrarily in the stored `calc_mode`
and in the published error, command and integral, one iteration on the same measured
speed has a result for both or for neither, and then issues the same motor-driver
writes and PID updates and yields the same filter, the same `calc_mode` and the same
published error, command and integral. -/
theorem enabled_tick_ignores_stored_telemetry (upd : PID → ℚ → ℚ × PID) (freq : Nat)
    (s t : State) (v : ℚ)
    (hen : s.is_active = true) (ha : t.is_active = s.is_active)
    (htr : t.target_rpm = s.target_rpm) (hkp : t.Kp = s.Kp) (hki : t.Ki = s.Ki)
    (hkd : t.Kd = s.Kd) (hpid : t.pid = s.pid) :
    (gen_thread_iter upd freq s v = none → gen_thread_iter upd freq t v = none) ∧
    ∀ s1 e1, gen_thread_iter upd freq s v = some (s1, e1) →
      ∃ t1 e2, gen_thread_iter upd freq t v = some (t1, e2) ∧
        driver_writes e2 = driver_writes e1 ∧
        pid_updates e2 = pid_updates e1 ∧
        t1.pid = s1.pid ∧ t1.calc_mode = s1.calc_mode ∧
        app_brake_rpm_error t1 = app_brake_rpm_error s1 ∧
        app_brake_current_command t1 = app_brake_current_command s1 ∧
        app_brake_current_integral_val t1 = app_brake_current_integral_val s1 := by
  obtain ⟨hnone, hsome⟩ := control_congr upd s t v hen ha htr hkp hki hkd hpid
  constructor
  · intro h
    exact (gen_thread_iter_eq_none upd freq t v).mpr
      (hnone ((gen_thread_iter_eq_none upd freq s v).mp h))
  · intro s1 e1 h
    cases hc : control upd s v with
    | none => rw [(gen_thread_iter_eq_none upd freq s v).mpr hc] at h; simp at h
    | some r =>
      obtain ⟨sx, ex⟩ := r
      rw [gen_thread_iter_of_control upd freq s sx v ex hc] at h
      simp only [Option.some.injEq, Prod.mk.injEq] at h
      obtain ⟨rfl, rfl⟩ := h
      obtain ⟨tx, htx, h1, h2, h3, h4, h5⟩ := hsome sx ex hc
      refine ⟨_, _, gen_thread_iter_of_control upd freq t tx v ex htx, ?_, ?_, ?_, ?_, ?_, ?_, ?_⟩
      · rw [(iter_tail_filters freq tx.stop_now ex).1, (iter_tail_filters freq sx.stop_now ex).1]
      · rw [(iter_tail_filters freq tx.stop_now ex).2, (iter_tail_filters freq sx.stop_now ex).2]
      · simpa using h1
      · simpa using h2
      · simpa [app_brake_rpm_error] using h3
      · simpa [app_brake_current_command] using h4
      · simpa [app_brake_current_integral_val] using h5

/-- Witness for C16, amended: `primed` and `primed_stale`, at speed 2000. -/
theorem enabled_tick_ignores_stored_telemetry_witness :
    primed.is_active = true ∧
    primed_stale.is_active = primed.is_active ∧
    primed_stale.target_rpm = primed.target_rpm ∧
    primed_stale.Kp = primed.Kp ∧ primed_stale.Ki = primed.Ki ∧
    primed_stale.Kd = primed.Kd ∧ primed_stale.pid = primed.pid ∧
    primed_stale.calc_mode ≠ primed.calc_mode ∧
    (gen_thread_iter pid_calc 10000 primed 2000 = none →
      gen_thread_iter pid_calc 10000 primed_stale 2000 = none) ∧
    ∀ s1 e1, gen_thread_iter pid_calc 10000 primed 2000 = some (s1, e1) →
      ∃ t1 e2, gen_thread_iter pid_calc 10000 primed_stale 2000 = some (t1, e2) ∧
        driver_writes e2 = driver_writes e1 ∧
        pid_updates e2 = pid_updates e1 ∧
        t1.pid = s1.pid ∧ t1.calc_mode = s1.calc_mode ∧
        app_brake_rpm_error t1 = app_brake_rpm_error s1 ∧
        app_brake_current_command t1 = app_brake_current_command s1 ∧
        app_brake_current_integral_val t1 = app_brake_current_integral_val s1 :=
  ⟨rfl, rfl, rfl, rfl, rfl, rfl, rfl, by decide,
    enabled_tick_ignores_stored_telemetry pid_calc 10000 primed primed_stale 2000
      rfl rfl rfl rfl rfl rfl rfl⟩

/-! The sleep duration and the argument checks of the terminal command -/

/-- C18: in every state, with `argv = [name, verb, ...]`: the command returns the state
unchanged and calls nothing (no driver call, nothing printed) when `verb` is none of
`on`, `off`, `rpm`, `lim`, `kp`, `ki`, `kd`, `pid`, or is one of `rpm`, `lim`, `kp`,
`ki`, `kd` with `argc` other than 3, or is `pid` with `argc` other than 5; the verbs `on`
and `off` set `is_active` whatever follows them. -/
theorem argument_count_checks (scan : String → Option ℚ) (s : State) (name verb : String)
    (rest : List String) :
    ((verb ≠ "on" ∧ verb ≠ "off" ∧ verb ≠ "rpm" ∧ verb ≠ "lim" ∧ verb ≠ "kp" ∧
        verb ≠ "ki" ∧ verb ≠ "kd" ∧ verb ≠ "pid") →
      terminal_cmd_brake_status scan s (name :: verb :: rest) = (s, [])) ∧
    ((verb = "rpm" ∨ verb = "lim" ∨ verb = "kp" ∨ verb = "ki" ∨ verb = "kd") →
      (name :: verb :: rest).length ≠ 3 →
      terminal_cmd_brake_status scan s (name :: verb :: rest) = (s, [])) ∧
    (verb = "pid" → (name :: verb :: rest).length ≠ 5 →
      terminal_cmd_brake_status scan s (name :: verb :: rest) = (s, [])) ∧
    (verb = "on" →
      terminal_cmd_brake_status scan s (name :: verb :: rest) =
        ({ s with is_active := true }, [])) ∧
    (verb = "off" →
      terminal_cmd_brake_status scan s (name :: verb :: rest) =
        ({ s with is_active := false }, [])) := by
  refine ⟨?_, ?_, ?_, ?_, ?_⟩
  · rintro ⟨h1, h2, h3, h4, h5, h6, h7, h8⟩
    simp [terminal_cmd_brake_status, h1, h2, h3, h4, h5, h6, h7, h8]
  · intro hverb hlen
    have hl : ¬ (rest.length + 1 + 1 = 3) := by simpa using hlen
    rcases hverb with h | h | h | h | h <;> subst h <;>
      simp [terminal_cmd_brake_status, hl]
  · intro hverb hlen
    have hl : ¬ (rest.length + 1 + 1 = 5) := by simpa using hlen
    subst hverb
    simp [terminal_cmd_brake_status, hl]
  · intro hverb
    subst hverb
    simp [terminal_cmd_brake_status]
  · intro hverb
    subst hverb
    simp [terminal_cmd_brake_status]

/-- Witness for C18: an unknown verb, `rpm` without a value, `pid` with two values, and
`off` with a trailing argument, in the state `primed`. -/
theorem argument_count_checks_witness :
    terminal_cmd_brake_status scan_decimal primed ["brake", "status", "1"] = (primed, []) ∧
    terminal_cmd_brake_status scan_decimal primed ["brake", "rpm"] = (primed, []) ∧
    terminal_cmd_brake_status scan_decimal primed ["brake", "pid", "0.01", "0.02"] =
      (primed, []) ∧
    terminal_cmd_brake_status scan_decimal primed ["brake", "off", "now"] =
      ({ primed with is_active := false }, []) :=
  ⟨(argument_count_checks scan_decimal primed "brake" "status" ["1"]).1 (by decide),
    (argument_count_checks scan_decimal primed "brake" "rpm" []).2.1 (Or.inl rfl) (by decide),
    (argument_count_checks scan_decimal primed "brake" "pid" ["0.01", "0.02"]).2.2.1 rfl
      (by decide),
    (argument_count_checks scan_decimal primed "brake" "off" ["now"]).2.2.2.2 rfl⟩

end AppBrake
